import Mathlib

/-!
# Live webcam inference orchestrator

A shallow embedding of the live-session, camera and recorder logic of
`frontend/src/pages/MediaLab.jsx` together with the pieces of `services/api.js` and
`services/mediaService.js` it relies on, and of the counters of
`frontend/src/pages/Dashboard.jsx`.

JavaScript runs every callback to completion, so each `async` function is cut at its
`await`s into synchronous segments: the segment that runs when the function is called
and one segment per way each awaited promise can settle.  The browser and the network
are part of the state: scheduled interval timers, requests that were sent and have not
settled yet, and a log of every request ever sent.

Numbers coming from the page geometry and from detection boxes are exact rationals;
the rounding of IEEE doubles is not modelled.
-/

namespace MediaLab

/-! ## JavaScript values -/

/-- JavaScript truthiness of a string-or-null value: `null`, `undefined` and `''` are falsy. -/
def truthy : Option String → Bool
  | some s => s != ""
  | none => false

/-- The expression `a || b` on string-or-null values. -/
def orElse (a b : Option String) : Option String :=
  if truthy a then a else b

/-- The expression `a || b` on non-negative numbers (`0` is falsy). -/
def numOr (a b : Nat) : Nat :=
  if a ≠ 0 then a else b

/-- `String.prototype.includes` on the characters of the two strings. -/
def includes (hay needle : String) : Bool :=
  hay.toList.tails.any (fun t => needle.toList.isPrefixOf t)

/-- `String.prototype.toLowerCase`, on ASCII letters. -/
def toLowerCase (s : String) : String :=
  String.mk (s.toList.map Char.toLower)

/-- `Number.prototype.toFixed(1)` on an exact value: the closest number with one decimal,
the larger one on a tie, a leading `-` for negative values (exponent form, used by
JavaScript from `1e21` on, is left out). -/
def toFixed1 (q : ℚ) : String :=
  let n : Nat := (Int.floor (|q| * 10 + 1 / 2)).toNat
  (if q < 0 then "-" else "") ++ toString (n / 10) ++ "." ++ toString (n % 10)

/-! ## Payloads -/

/-- A rejected request: `error.response?.status`, `error.response?.data?.message` and
`error.response?.data?.msg`, which the handlers read, and `error.message`, the text of
the error object itself, which no handler reads.  A network-level failure has no
response, hence none of the first three, and axios gives it the text `Network Error`. -/
structure ApiError where
  status : Option Nat
  message : Option String
  msg : Option String
  errorMessage : String := ""
  deriving DecidableEq

/-- One entry of `detections`: `{ box: [x, y, w, h], label, confidence }`. -/
structure Detection where
  x : ℚ
  y : ℚ
  w : ℚ
  h : ℚ
  label : String
  confidence : ℚ

/-- The `session` object of an analyze-frame response (running aggregates). -/
structure SessionStats where
  frames : Nat
  counts : List (String × Nat)

/-- The analyze-frame response, as far as the page reads it. -/
structure FrameResponse where
  dominant_emotion : String
  confidence : ℚ
  detections : Option (List Detection)
  session : Option SessionStats

/-- An analysis record of a session summary. -/
structure AnalysisRecord where
  id : Nat
  media_type : String
  dominant_emotion : String
  deriving DecidableEq

/-- The session-stop response body; `analyses` is `none` when it is not an array. -/
structure StopPayload where
  frames : Nat
  duration_seconds : ℚ
  analyses : Option (List AnalysisRecord)
  analysis : Option AnalysisRecord

/-- The function `normalizeAnalysesPayload` of `mediaService.js`. -/
def normalizeAnalysesPayload (data : StopPayload) : StopPayload :=
  let analyses : List AnalysisRecord :=
    match data.analyses with
    | some l => l
    | none =>
      match data.analysis with
      | some a => [a]
      | none => []
  let normalized : StopPayload := { data with analyses := some analyses }
  match normalized.analysis, analyses with
  | none, a :: _ => { normalized with analysis := some a }
  | _, _ => normalized

/-- What `liveSessionStats` can hold: the `session` object of a frame response or a
session summary. -/
inductive LiveStats where
  | session (v : SessionStats)
  | summary (v : StopPayload)

/-- The multipart fields of an analyze-frame request (`sendMultipart`): `channel`, and
`session_id` only when the id passed to `analyzeWebcamFrame` is truthy. -/
structure FrameRequest where
  channel : String
  session_id : Option String
  deriving DecidableEq

/-- The function `analyzeWebcamFrame` up to the point where the request leaves. -/
def analyzeWebcamFrame (channel : String) (sessionId : Option String) : FrameRequest :=
  { channel := channel, session_id := if truthy sessionId then sessionId else none }

/-- `String.prototype.startsWith`. -/
def startsWith (s p : String) : Bool :=
  p.toList.isPrefixOf s.toList

/-- The characters of `hay` with the first occurrence of `pat` removed. -/
def removeFirstChars (pat : List Char) : List Char → List Char
  | [] => []
  | c :: rest =>
    if pat.isPrefixOf (c :: rest) then (c :: rest).drop pat.length
    else c :: removeFirstChars pat rest

/-- The call `s.replace(pat, '')` with a string pattern: the first occurrence of `pat`
is removed. -/
def removeFirst (s pat : String) : String :=
  String.mk (removeFirstChars pat.toList s.toList)

/-- The call `s.replace` with the regular expression for one or more slashes at the start
of the string and an empty replacement: leading slashes are removed. -/
def stripLeadingSlashes (s : String) : String :=
  String.mk (s.toList.dropWhile (fun c => c == '/'))

/-- The function `normalizeFileEndpoint` of `mediaService.js`; `apiBaseUrl` is the
constant `API_BASE_URL` of `api.js`, taken from the build environment. -/
def normalizeFileEndpoint (apiBaseUrl : String) (pathOrUrl : Option String) : Option String :=
  match pathOrUrl with
  | none => none
  | some path =>
    if path = "" then none
    else
      let withoutBase := if startsWith path "http" then removeFirst path apiBaseUrl else path
      if startsWith withoutBase "/media/files" then some withoutBase
      else some ("/media/files/" ++ stripLeadingSlashes withoutBase)

/-! ## The page elements -/

/-- The `<video>` element: layout size and intrinsic size of the stream. -/
structure VideoElement where
  clientWidth : Nat
  clientHeight : Nat
  videoWidth : Nat
  videoHeight : Nat
  deriving DecidableEq

/-- A call on the 2D context of the overlay canvas, with the style in force. -/
inductive DrawOp where
  | strokeRect (style : String) (x y w h : ℚ)
  | fillRect (style : String) (x y w h : ℚ)
  | fillText (style : String) (text : String) (x y : ℚ)

/-- The overlay canvas: bitmap size, CSS size, context state and what has been painted
since the bitmap was last cleared. -/
structure Overlay where
  width : Nat
  height : Nat
  styleWidth : Option Nat
  styleHeight : Option Nat
  lineWidth : ℚ
  fontPx : ℚ
  ops : List DrawOp

/-- The capture canvas used to encode frames: only its bitmap size is observable. -/
structure CaptureCanvas where
  width : Nat
  height : Nat
  deriving DecidableEq

/-- An interval timer scheduled with `window.setInterval`: its handle and its period in
milliseconds. -/
structure Timer where
  handle : Nat
  delay : Nat
  deriving DecidableEq

/-- The `state` attribute of a `MediaRecorder`, as far as the page can see it. -/
inductive RecordingState where
  | inactive
  | recording
  deriving DecidableEq

/-- A `MediaRecorder` created by `startRecording`, with the `chunks` array its handlers
close over (chunk sizes in bytes): the stream it records, its `state`, and whether the
browser still has to dispatch its `stop` event (queued when the recorder is inactivated,
by `stop()`, by an error, or because every track of its stream ended).  `published`
counts the clips its `onstop` handler has produced so far. -/
structure Recorder where
  id : Nat
  stream : Nat
  state : RecordingState
  chunks : List Nat
  stopQueued : Bool
  published : Nat
  deriving DecidableEq

/-- A pending `setTimeout` of `startRecording`: the recorder its callback closes over and
the delay in milliseconds. -/
structure Timeout where
  recorder : Nat
  delay : Nat
  deriving DecidableEq

/-- A `Blob` assembled from recorded chunks (their sizes) with its MIME type. -/
structure Blob where
  parts : List Nat
  mimeType : String
  deriving DecidableEq

/-! ## The component state -/

/-- The refs and React state of `MediaLab` that the live loop touches, followed by the
part of the browser and of the network the loop interacts with.

`liveIntervalRef` holds a handle returned by `setInterval`; handles are positive
integers, so a stored handle is truthy.  `pendingStarts`, `pendingBlobs`,
`pendingFrames` and `pendingStops` count the promises the code is awaiting
(session-start requests, `canvas.toBlob` callbacks, analyze-frame requests, session-stop
requests); the `sent...` lists record every request that left, oldest first.
`unauthorized` records the `auth:unauthorized` events dispatched by the response
interceptor of `api.js`.

The effect that copies `liveSessionId` into `liveSessionIdRef` after a render is not a
separate step: the code always writes the state and the ref together, with the same
value.

The last group of fields belongs to the camera and the clip recorder: `streamRef` tells
whether a stream handle is stored and `streamId` which stream it is, `liveStreams` lists
the acquired streams whose tracks have not been stopped, `videoSrcObject` tells whether
the video element shows a stream, `recorders` are the `MediaRecorder` objects created so
far, `recorderRef` the one stored in the ref, `timeouts` the pending 5000 ms timeouts,
and `mediaRecorderDefined` / `mediaRecorderConstructs` say whether the browser has
`MediaRecorder` and whether one of the two constructor calls succeeds.
`cameraApiAvailable` says whether `navigator.mediaDevices.getUserMedia` exists,
`pendingCameras` counts the `getUserMedia` promises awaited by `startCamera`, and
`nextStream` numbers the streams the browser has handed out. -/
structure State where
  videoRef : Option VideoElement
  streamRef : Bool
  overlayRef : Option Overlay
  captureCanvasRef : Option CaptureCanvas
  liveIntervalRef : Option Nat
  liveRequestRef : Bool
  webcamChannelRef : String
  liveSessionIdRef : Option String
  historyMediaType : String
  historyEmotion : String
  history : List AnalysisRecord
  latestResults : List AnalysisRecord
  isPreviewActive : Bool
  isLiveActive : Bool
  liveResult : Option FrameResponse
  liveStatus : String
  liveError : String
  liveSessionId : Option String
  liveSessionStats : Option LiveStats
  liveSessionSummary : Option StopPayload
  measureText : ℚ → String → ℚ
  timers : List Timer
  nextTimer : Nat
  pendingStarts : Nat
  pendingBlobs : Nat
  pendingFrames : Nat
  pendingStops : Nat
  sentStarts : List String
  sentFrames : List FrameRequest
  sentStops : List String
  historyRefreshes : Nat
  unauthorized : List String
  webcamError : String
  isRecording : Bool
  recordingBlob : Option Blob
  recorderRef : Option Nat
  streamId : Nat
  liveStreams : List Nat
  videoSrcObject : Bool
  recorders : List Recorder
  nextRecorder : Nat
  timeouts : List Timeout
  mediaRecorderDefined : Bool
  mediaRecorderConstructs : Bool
  cameraApiAvailable : Bool
  pendingCameras : Nat
  nextStream : Nat

/-- The result of calling an `async` function up to its first suspension: it either
returned already or is awaiting a promise. -/
inductive Async (α : Type) where
  | done (value : α)
  | awaiting

/-! ## `api.js`: the response interceptor -/

/-- The interceptor's `rawMessage`: `payload.message || payload.msg || ''`. -/
def rawMessage (e : ApiError) : String :=
  (orElse e.message e.msg).getD ""

/-- The interceptor's `shouldLogout`. -/
def shouldLogout (e : ApiError) : Bool :=
  e.status == some 401 ||
    (e.status == some 422 && includes (toLowerCase (rawMessage e)) "subject must be a string")

/-- The rejection handler of `api.interceptors.response`: it dispatches
`auth:unauthorized` with `reason: rawMessage || 'session-expired'` when `shouldLogout`
holds, and rejects with the same error in every case. -/
def responseInterceptor (s : State) (e : ApiError) : State :=
  if shouldLogout e then
    { s with unauthorized :=
        s.unauthorized ++ [if rawMessage e != "" then rawMessage e else "session-expired"] }
  else s

/-! ## `MediaLab.jsx` -/

/-- The callback `pushAnalyses`; the history request started by `refreshHistory` is
only counted. -/
def pushAnalyses (s : State) (analyses : List AnalysisRecord) : State :=
  if analyses.length = 0 then s
  else
    let filtered := analyses.filter (fun a =>
      (s.historyMediaType == "all" || a.media_type == s.historyMediaType) &&
      (s.historyEmotion == "all" || a.dominant_emotion == s.historyEmotion))
    { s with
      latestResults := (analyses ++ s.latestResults).take 5
      history := if filtered.length > 0 then (filtered ++ s.history).take 12 else s.history
      historyRefreshes := s.historyRefreshes + 1 }

/-- The callback `closeLiveSession`, from the call to its `await`: without a bound id it
returns `null`; otherwise `stopLiveSession(sessionId)` posts the session-stop request. -/
def closeLiveSession (s : State) : State × Async (Option StopPayload) :=
  match s.liveSessionIdRef with
  | some sessionId =>
    if sessionId != "" then
      ({ s with sentStops := s.sentStops ++ [sessionId], pendingStops := s.pendingStops + 1 },
        Async.awaiting)
    else (s, Async.done none)
  | none => (s, Async.done none)

/-- The callback `closeLiveSession` after the session-stop request succeeded with body
`data`: the `try` block, then the `finally` block; the returned value is the response. -/
def closeLiveSession_fulfilled (s : State) (data : StopPayload) : State × Option StopPayload :=
  let response := normalizeAnalysesPayload data
  let s1 : State :=
    { s with
      pendingStops := s.pendingStops - 1
      liveSessionSummary := some response
      liveSessionStats := some (LiveStats.summary response) }
  let s2 : State :=
    match response.analyses with
    | some l => if l.length ≠ 0 then pushAnalyses s1 l else s1
    | none => s1
  ({ s2 with liveSessionId := none, liveSessionIdRef := none }, some response)

/-- The callback `closeLiveSession` after the session-stop request failed: the
interceptor, the `catch` block, then the `finally` block; it returns `null`. -/
def closeLiveSession_rejected (s : State) (e : ApiError) : State × Option StopPayload :=
  let s1 := responseInterceptor s e
  ({ s1 with
      pendingStops := s1.pendingStops - 1
      liveError := (orElse e.message (some "No se pudo cerrar la sesión en vivo.")).getD ""
      liveSessionId := none
      liveSessionIdRef := none }, none)

/-- The callback `clearOverlay`. -/
def clearOverlay (s : State) : State :=
  match s.overlayRef with
  | some canvas => { s with overlayRef := some { canvas with ops := [] } }
  | none => s

/-- The browser's `clearInterval`. -/
def clearInterval (s : State) (id : Nat) : State :=
  { s with timers := s.timers.filter (fun t => t.handle != id) }

/-- The callback `stopLiveLoop`, from the call to its only `await` (nothing follows the
`await`). -/
def stopLiveLoop (s : State) : State :=
  let s1 : State :=
    match s.liveIntervalRef with
    | some id => { clearInterval s id with liveIntervalRef := none }
    | none => s
  let s2 : State := { s1 with liveRequestRef := false }
  let hadSession := truthy s2.liveSessionIdRef
  let s3 : State :=
    { s2 with isLiveActive := false, liveStatus := "IA en espera", liveResult := none }
  let s4 : State := if !hadSession then { s3 with liveSessionStats := none } else s3
  let s5 := clearOverlay s4
  if hadSession then (closeLiveSession s5).1 else s5

/-- The paint calls of one iteration of the `forEach` of `drawDetections`, for an
overlay of bitmap width `width` whose font was just set to `fontPx` pixels:
`parseInt(ctx.font, 10)` is the integer part of the font size. -/
def drawDetection (measureText : ℚ → String → ℚ) (fontPx scaleX scaleY : ℚ)
    (d : Detection) : List DrawOp :=
  let x := d.x * scaleX
  let y := d.y * scaleY
  let w := d.w * scaleX
  let h := d.h * scaleY
  let text := d.label ++ " " ++ toFixed1 (d.confidence * 100) ++ "%"
  let textWidth := measureText fontPx text + 10
  let textHeight : ℚ := ((Int.floor fontPx : ℤ) : ℚ) + 6
  let labelY := max (y - textHeight) 0
  [DrawOp.strokeRect "#22d3ee" x y w h,
   DrawOp.fillRect "rgba(15, 23, 42, 0.8)" (x - 2) labelY textWidth textHeight,
   DrawOp.fillText "#fff" text (x + 2) (labelY + 4)]

/-- The local `displayWidth` of `drawDetections`: `clientWidth || videoWidth`. -/
def displayWidth (v : VideoElement) : Nat := numOr v.clientWidth v.videoWidth

/-- The local `displayHeight` of `drawDetections`: `clientHeight || videoHeight`. -/
def displayHeight (v : VideoElement) : Nat := numOr v.clientHeight v.videoHeight

/-- The local `intrinsicWidth` of `drawDetections`: `videoWidth || displayWidth`. -/
def intrinsicWidth (v : VideoElement) : Nat := numOr v.videoWidth (displayWidth v)

/-- The local `intrinsicHeight` of `drawDetections`: `videoHeight || displayHeight`. -/
def intrinsicHeight (v : VideoElement) : Nat := numOr v.videoHeight (displayHeight v)

/-- The callback `drawDetections`.  Assigning `overlay.width` resets the bitmap and the
context state (line width 1, font 10px) before `clearRect` runs. -/
def drawDetections (s : State) (summary : FrameResponse) : State :=
  match s.overlayRef, s.videoRef with
  | some _, some videoElement =>
    if displayWidth videoElement = 0 ∨ displayHeight videoElement = 0 ∨
        intrinsicWidth videoElement = 0 ∨ intrinsicHeight videoElement = 0 then s
    else
      let cleared : Overlay :=
        { width := displayWidth videoElement, height := displayHeight videoElement,
          styleWidth := some (displayWidth videoElement),
          styleHeight := some (displayHeight videoElement),
          lineWidth := 1, fontPx := 10, ops := [] }
      let scaleX : ℚ := (displayWidth videoElement : ℚ) / (intrinsicWidth videoElement : ℚ)
      let scaleY : ℚ := (displayHeight videoElement : ℚ) / (intrinsicHeight videoElement : ℚ)
      let detections := summary.detections.getD []
      if detections.length = 0 then
        { s with overlayRef := some cleared, liveStatus := "IA en vivo: buscando rostros..." }
      else
        let fontPx : ℚ := max 14 ((cleared.width : ℚ) * (18 / 1000))
        let painted : Overlay :=
          { cleared with
            lineWidth := 2
            fontPx := fontPx
            ops := detections.flatMap (drawDetection s.measureText fontPx scaleX scaleY) }
        { s with overlayRef := some painted }
  | _, _ => s

/-- The browser's `setInterval`: a fresh positive handle, now scheduled with the given
period. -/
def setInterval (s : State) (delay : Nat) : State × Nat :=
  ({ s with
      timers := s.timers ++ [{ handle := s.nextTimer + 1, delay := delay }]
      nextTimer := s.nextTimer + 1 },
    s.nextTimer + 1)

/-- The closure `captureAndAnalyze`, from the call to `await new Promise(... toBlob ...)`:
the two early returns, then the gate is set, the capture canvas takes the size of the
video frame and the encoding of the frame is requested. -/
def captureAndAnalyze (s : State) : State :=
  match s.videoRef, s.captureCanvasRef with
  | some video, some _ =>
    if video.videoWidth = 0 then s
    else if s.liveRequestRef then s
    else
      { s with
        liveRequestRef := true
        captureCanvasRef := some { width := video.videoWidth, height := video.videoHeight }
        pendingBlobs := s.pendingBlobs + 1 }
  | _, _ => s

/-- The closure `captureAndAnalyze` when `toBlob` calls back (`blob = false` stands for a
`null` blob): without a blob the gate is cleared; with one, `analyzeWebcamFrame` sends the
frame with the channel and session id stored in the refs at that moment. -/
def captureAndAnalyze_blob (s : State) (blob : Bool) : State :=
  let s1 : State := { s with pendingBlobs := s.pendingBlobs - 1 }
  if !blob then { s1 with liveRequestRef := false }
  else
    { s1 with
      sentFrames := s1.sentFrames ++ [analyzeWebcamFrame s1.webcamChannelRef s1.liveSessionIdRef]
      pendingFrames := s1.pendingFrames + 1 }

/-- The closure `captureAndAnalyze` when the analyze-frame request succeeds: the rest of
the `try` block, then the `finally` block. -/
def captureAndAnalyze_fulfilled (s : State) (response : FrameResponse) : State :=
  let s1 : State :=
    { s with
      pendingFrames := s.pendingFrames - 1
      liveResult := some response
      liveStatus := "IA en vivo: " ++ response.dominant_emotion ++ " " ++
        toFixed1 (response.confidence * 100) ++ "%" }
  let s2 := drawDetections s1 response
  let s3 : State := { s2 with liveError := "" }
  let s4 : State :=
    match response.session with
    | some session => { s3 with liveSessionStats := some (LiveStats.session session) }
    | none => s3
  { s4 with liveRequestRef := false }

/-- The `apiMessage` of the `catch` block of `captureAndAnalyze`. -/
def frameApiMessage (e : ApiError) : String :=
  (orElse e.message (some "No se pudo analizar el fotograma de la cámara.")).getD ""

/-- The closure `captureAndAnalyze` when the analyze-frame request fails: the
interceptor, the `catch` block (which calls `stopLiveLoop` unless the status is 400),
then the `finally` block. -/
def captureAndAnalyze_rejected (s : State) (e : ApiError) : State :=
  let s0 := responseInterceptor s e
  let s1 : State := { s0 with pendingFrames := s0.pendingFrames - 1 }
  let apiMessage := frameApiMessage e
  let s2 : State :=
    if e.status = some 400 then
      clearOverlay { s1 with liveStatus := "IA en vivo: " ++ apiMessage, liveError := "" }
    else
      stopLiveLoop { s1 with liveError := apiMessage }
  { s2 with liveRequestRef := false }

/-- The callback `startLiveLoop`, from the call to `await startLiveSession(...)`. -/
def startLiveLoop (s : State) : State :=
  if !s.streamRef || s.videoRef.isNone then
    { s with liveError := "Activa la cámara antes de iniciar la IA en vivo." }
  else
    let s1 : State :=
      match s.captureCanvasRef with
      | none => { s with captureCanvasRef := some { width := 300, height := 150 } }
      | some _ => s
    if s1.liveIntervalRef.isSome || s1.liveRequestRef || truthy s1.liveSessionIdRef then s1
    else
      { s1 with
        sentStarts := s1.sentStarts ++ [s1.webcamChannelRef]
        pendingStarts := s1.pendingStarts + 1 }

/-- The callback `startLiveLoop` when the session-start request succeeds with
`session_id = sessionId`: the session is bound, `captureAndAnalyze` is called once and
then scheduled every 1800 ms. -/
def startLiveLoop_fulfilled (s : State) (sessionId : Option String) : State :=
  let s1 : State :=
    { s with
      pendingStarts := s.pendingStarts - 1
      liveSessionId := sessionId
      liveSessionIdRef := sessionId
      liveSessionStats := none
      liveSessionSummary := none
      isLiveActive := true
      liveStatus := "IA en vivo: calibrando cámara..."
      liveError := "" }
  let s2 := captureAndAnalyze s1
  let (s3, handle) := setInterval s2 1800
  { s3 with liveIntervalRef := some handle }

/-- The callback `startLiveLoop` when the session-start request fails: the interceptor,
then the `catch` block. -/
def startLiveLoop_rejected (s : State) (e : ApiError) : State :=
  let s0 := responseInterceptor s e
  let apiMessage := orElse e.message e.msg
  { s0 with
    pendingStarts := s0.pendingStarts - 1
    liveError :=
      if e.status = some 401 ∨ e.status = some 422 then
        "Tu sesión expiró. Inicia sesión nuevamente para usar la cámara en vivo."
      else (orElse apiMessage (some "No se pudo iniciar la sesión en vivo.")).getD "" }

/-- The function `startCamera`, from the call to `await getUserMedia(...)`: nothing
happens when the preview flag of the current render is set; without the camera API the
error is shown; otherwise a combined audio/video stream is requested. -/
def startCamera (s : State) : State :=
  if s.isPreviewActive then s
  else if !s.cameraApiAvailable then
    { s with
      webcamError := "La API de cámara no está disponible en este navegador."
      liveError := "" }
  else { s with pendingCameras := s.pendingCameras + 1 }

/-- The function `startCamera` when `getUserMedia` resolves with a fresh stream: the
stream is stored and shown, the preview flag is set and the live fields are reset. -/
def startCamera_fulfilled (s : State) : State :=
  let s1 : State :=
    { s with
      pendingCameras := s.pendingCameras - 1
      nextStream := s.nextStream + 1
      liveStreams := s.liveStreams ++ [s.nextStream + 1]
      streamRef := true
      streamId := s.nextStream + 1 }
  let s2 : State := if s1.videoRef.isSome then { s1 with videoSrcObject := true } else s1
  clearOverlay
    { s2 with
      isPreviewActive := true
      webcamError := ""
      liveError := ""
      liveStatus := "IA en espera"
      liveResult := none
      liveSessionStats := none
      liveSessionSummary := none }

/-- The function `startCamera` when `getUserMedia` rejects (permission denied, device
busy): the `catch` block. -/
def startCamera_rejected (s : State) : State :=
  { s with
    pendingCameras := s.pendingCameras - 1
    webcamError := "No pudimos acceder a la cámara. Revisa los permisos del navegador o cierra otras aplicaciones que la estén usando."
    liveError := "" }

/-- The callback `stopCamera`: it calls `stopLiveLoop` without waiting for it, stops the
tracks of the stored stream, drops the stream handle, detaches the video element and
resets the preview, recording and live fields. -/
def stopCamera (s : State) : State :=
  let s1 := stopLiveLoop s
  let s2 : State :=
    if s1.streamRef then
      { s1 with liveStreams := s1.liveStreams.filter (fun id => id != s1.streamId) }
    else s1
  let s3 : State := { s2 with streamRef := false }
  let s4 : State := if s3.videoRef.isSome then { s3 with videoSrcObject := false } else s3
  { s4 with
    isPreviewActive := false
    isRecording := false
    recordingBlob := none
    liveError := ""
    liveResult := none
    liveStatus := "IA en espera" }

/-- The browser's `MediaRecorder.stop()` on recorder `id`: a recording recorder becomes
inactive and its `stop` event is queued; on an inactive recorder nothing happens. -/
def recorderStop (s : State) (id : Nat) : State :=
  { s with
    recorders := s.recorders.map (fun r =>
      if r.id = id ∧ r.state = RecordingState.recording then
        { r with state := RecordingState.inactive, stopQueued := true }
      else r) }

/-- The `state` of recorder `id`, if that recorder exists. -/
def recorderState (s : State) (id : Nat) : Option RecordingState :=
  (s.recorders.find? (fun r => r.id == id)).map (fun r => r.state)

/-- The function `startRecording`: the three early returns, the two constructor attempts,
then the recorder is started and stored, the recording flag is set and the 5000 ms
timeout is scheduled.  `isRecording` is the React state of the current render. -/
def startRecording (s : State) : State :=
  if !s.streamRef then { s with webcamError := "Activa la cámara antes de grabar." }
  else if s.isRecording then s
  else if !s.mediaRecorderDefined then
    { s with webcamError := "MediaRecorder no es compatible con este navegador." }
  else if !s.mediaRecorderConstructs then
    { s with webcamError := "No se pudo iniciar la grabación en este navegador." }
  else
    { s with
      recorders := s.recorders ++
        [{ id := s.nextRecorder + 1, stream := s.streamId, state := RecordingState.recording,
           chunks := [], stopQueued := false, published := 0 }]
      nextRecorder := s.nextRecorder + 1
      recorderRef := some (s.nextRecorder + 1)
      isRecording := true
      timeouts := s.timeouts ++ [{ recorder := s.nextRecorder + 1, delay := 5000 }] }

/-- The function `stopRecording`. -/
def stopRecording (s : State) : State :=
  match s.recorderRef with
  | some id =>
    if recorderState s id ≠ some RecordingState.inactive then recorderStop s id else s
  | none => s

/-- The callback passed to `setTimeout` by `startRecording`, for recorder `id`. -/
def recordingTimeout (s : State) (id : Nat) : State :=
  let s1 : State := { s with timeouts := s.timeouts.filter (fun t => t.recorder != id) }
  if recorderState s1 id ≠ some RecordingState.inactive then recorderStop s1 id else s1

/-- The handler `recorder.ondataavailable` of recorder `id` for a chunk of `size` bytes. -/
def recorder_ondataavailable (s : State) (id size : Nat) : State :=
  if size ≠ 0 then
    { s with
      recorders := s.recorders.map (fun r =>
        if r.id = id then { r with chunks := r.chunks ++ [size] } else r) }
  else s

/-- The handler `recorder.onstop` of recorder `id`, run when the browser dispatches the
queued `stop` event: the recording flag is cleared and the chunks become the clip.  The
dispatch consumes the queued event of that recorder and counts as one published clip. -/
def recorder_onstop (s : State) (id : Nat) : State :=
  let chunks := ((s.recorders.find? (fun r => r.id == id)).map (fun r => r.chunks)).getD []
  { s with
    recorders := s.recorders.map (fun r =>
      if r.id = id ∧ r.stopQueued = true then
        { r with stopQueued := false, published := r.published + 1 }
      else r)
    isRecording := false
    recordingBlob := some { parts := chunks, mimeType := "video/webm" } }

/-- The browser inactivating recorder `id` on its own, because recording failed or
because every track of its stream ended: the recorder becomes inactive and its `stop`
event is queued. -/
def recorderInactivate (s : State) (id : Nat) : State :=
  recorderStop s id

/-- The handler `recorder.onerror` of recorder `id`, run after the browser inactivated
the recorder: the error is shown and `recorder.stop()` is called. -/
def recorder_onerror (s : State) (id : Nat) : State :=
  recorderStop { recorderInactivate s id with
    webcamError := "Ocurrió un error durante la grabación." } id

/-- The test of the `catch` block of `startLiveLoop` that selects the re-authenticate
text: `status === 401 || status === 422`. -/
def startSessionExpired (e : ApiError) : Bool :=
  e.status == some 401 || e.status == some 422

/-- The test of the `catch` block of `captureAndAnalyze` that keeps the loop running:
`status === 400`. -/
def frameFailureBenign (e : ApiError) : Bool :=
  e.status == some 400

/-- The constant `liveSummaryAnalyses` of the render of `MediaLab`: the `analyses` of the
session summary when that list is non-empty, else its single `analysis`, else nothing. -/
def liveSummaryAnalyses (liveSessionSummary : Option StopPayload) : List AnalysisRecord :=
  match liveSessionSummary with
  | none => []
  | some summary =>
    match summary.analyses with
    | some (a :: rest) => a :: rest
    | _ =>
      match summary.analysis with
      | some a => [a]
      | none => []

/-! ## Executions of the live loop -/

/-- What can happen to the live loop: a call of `startLiveLoop` or `stopLiveLoop` (button
or key), the firing of a scheduled interval timer, the settling of an awaited promise,
and a change of the video element (layout, stream metadata, unmount). -/
inductive LiveEvent where
  | start
  | startFulfilled (sessionId : Option String)
  | startRejected (e : ApiError)
  | tick (handle : Nat)
  | blob (ok : Bool)
  | frameFulfilled (response : FrameResponse)
  | frameRejected (e : ApiError)
  | stop
  | stopFulfilled (data : StopPayload)
  | stopRejected (e : ApiError)
  | video (element : Option VideoElement)

/-- One event applied to a state.  A promise can settle only if it is awaited and a timer
can fire only while it is scheduled; an event that cannot happen leaves the state as it
is. -/
def step (s : State) : LiveEvent → State
  | LiveEvent.start => startLiveLoop s
  | LiveEvent.startFulfilled sessionId =>
    if 0 < s.pendingStarts then startLiveLoop_fulfilled s sessionId else s
  | LiveEvent.startRejected e =>
    if 0 < s.pendingStarts then startLiveLoop_rejected s e else s
  | LiveEvent.tick handle =>
    if s.timers.any (fun t => t.handle == handle) then captureAndAnalyze s else s
  | LiveEvent.blob ok =>
    if 0 < s.pendingBlobs then captureAndAnalyze_blob s ok else s
  | LiveEvent.frameFulfilled response =>
    if 0 < s.pendingFrames then captureAndAnalyze_fulfilled s response else s
  | LiveEvent.frameRejected e =>
    if 0 < s.pendingFrames then captureAndAnalyze_rejected s e else s
  | LiveEvent.stop => stopLiveLoop s
  | LiveEvent.stopFulfilled data =>
    if 0 < s.pendingStops then (closeLiveSession_fulfilled s data).1 else s
  | LiveEvent.stopRejected e =>
    if 0 < s.pendingStops then (closeLiveSession_rejected s e).1 else s
  | LiveEvent.video element => { s with videoRef := element }

/-- The state after a sequence of events. -/
def run (s : State) (events : List LiveEvent) : State :=
  events.foldl step s

/-- Whether every call of `stopLiveLoop` from outside in `events` is made while no tick
is in progress (the single-flight gate is clear at that moment). -/
def stopsBetweenTicks (s : State) : List LiveEvent → Bool
  | [] => true
  | LiveEvent.stop :: rest => !s.liveRequestRef && stopsBetweenTicks (step s LiveEvent.stop) rest
  | e :: rest => stopsBetweenTicks (step s e) rest

/-! ## Executions of the whole page -/

/-- What can happen to the camera card besides the events of the live loop: a click on
`Activar cámara` and the settling of its `getUserMedia` promise, a click on
`Detener cámara`, `Grabar 5s` or `Detener grabación`, the firing of a 5000 ms timeout,
and the events of a recorder (a chunk of data, the queued `stop`, an error, the end of
every track of its stream). -/
inductive PageEvent where
  | live (e : LiveEvent)
  | startCamera
  | cameraFulfilled
  | cameraRejected
  | stopCamera
  | startRecording
  | stopRecording
  | recordingTimeout (id : Nat)
  | recorderData (id size : Nat)
  | recorderStopped (id : Nat)
  | recorderError (id : Nat)
  | tracksEnded (id : Nat)

/-- Whether recorder `id` exists and satisfies `p`. -/
def recorderHas (s : State) (id : Nat) (p : Recorder → Bool) : Bool :=
  s.recorders.any (fun r => r.id == id && p r)

/-- One page event applied to a state; an event that cannot happen leaves the state as
it is.  A timeout fires only while it is pending, a recorder delivers data while it
records or while its `stop` event is queued, fails only while it records, and loses its
tracks only while it records a stream whose tracks have all been stopped. -/
def pageStep (s : State) : PageEvent → State
  | PageEvent.live e => step s e
  | PageEvent.startCamera => startCamera s
  | PageEvent.cameraFulfilled => if 0 < s.pendingCameras then startCamera_fulfilled s else s
  | PageEvent.cameraRejected => if 0 < s.pendingCameras then startCamera_rejected s else s
  | PageEvent.stopCamera => stopCamera s
  | PageEvent.startRecording => startRecording s
  | PageEvent.stopRecording => stopRecording s
  | PageEvent.recordingTimeout id =>
    if s.timeouts.any (fun t => t.recorder == id) then recordingTimeout s id else s
  | PageEvent.recorderData id size =>
    if recorderHas s id (fun r => r.state == RecordingState.recording || r.stopQueued) then
      recorder_ondataavailable s id size
    else s
  | PageEvent.recorderStopped id =>
    if recorderHas s id (fun r => r.stopQueued) then recorder_onstop s id else s
  | PageEvent.recorderError id =>
    if recorderHas s id (fun r => r.state == RecordingState.recording) then
      recorder_onerror s id
    else s
  | PageEvent.tracksEnded id =>
    if recorderHas s id (fun r =>
        r.state == RecordingState.recording && !s.liveStreams.contains r.stream) then
      recorderInactivate s id
    else s

/-- The state after a sequence of page events. -/
def pageRun (s : State) (events : List PageEvent) : State :=
  events.foldl pageStep s

/-- The page with the camera on and the live loop never started: a 640x480 preview of a
1280x960 stream, the default 300x150 canvases, nothing scheduled, nothing awaited. -/
def cameraOn : State :=
  { videoRef := some { clientWidth := 640, clientHeight := 480, videoWidth := 1280, videoHeight := 960 }
    streamRef := true
    overlayRef := some { width := 300, height := 150, styleWidth := none, styleHeight := none,
                         lineWidth := 1, fontPx := 10, ops := [] }
    captureCanvasRef := some { width := 300, height := 150 }
    liveIntervalRef := none
    liveRequestRef := false
    webcamChannelRef := "webcam"
    liveSessionIdRef := none
    historyMediaType := "image"
    historyEmotion := "all"
    history := []
    latestResults := []
    isPreviewActive := true
    isLiveActive := false
    liveResult := none
    liveStatus := "IA en espera"
    liveError := ""
    liveSessionId := none
    liveSessionStats := none
    liveSessionSummary := none
    measureText := fun fontPx text => fontPx * (text.length : ℚ) / 2
    timers := []
    nextTimer := 0
    pendingStarts := 0
    pendingBlobs := 0
    pendingFrames := 0
    pendingStops := 0
    sentStarts := []
    sentFrames := []
    sentStops := []
    historyRefreshes := 0
    unauthorized := []
    webcamError := ""
    isRecording := false
    recordingBlob := none
    recorderRef := none
    streamId := 1
    liveStreams := [1]
    videoSrcObject := true
    recorders := []
    nextRecorder := 0
    timeouts := []
    mediaRecorderDefined := true
    mediaRecorderConstructs := true
    cameraApiAvailable := true
    pendingCameras := 0
    nextStream := 1 }

/-! ## Sample states and bookkeeping used by the theorems -/

/-- What holds of every recorder at every moment: while it records, its `stop` event is
not queued and it has published nothing; while its `stop` event is queued it has
published nothing; and it has published at most one clip. -/
def PublishesOnce (r : Recorder) : Prop :=
  (r.state = RecordingState.recording → r.stopQueued = false ∧ r.published = 0) ∧
  (r.stopQueued = true → r.published = 0) ∧
  r.published ≤ 1

/-- The single-flight bookkeeping: the gate is set exactly while one tick is between its
start and its end (awaiting either the encoded frame or the response). -/
def GateMatches (s : State) : Prop :=
  s.pendingBlobs + s.pendingFrames = s.liveRequestRef.toNat

/-- A frame response with one detection. -/
def oneFace : FrameResponse :=
  { dominant_emotion := "happy"
    confidence := 1 / 2
    detections := some [{ x := 100, y := 100, w := 200, h := 150, label := "happy", confidence := 1 / 2 }]
    session := some { frames := 1, counts := [("happy", 1)] } }

/-- A run in which the first frame request of session `s1` is outstanding: the camera is
on, the loop starts, the frame is encoded and sent; timer 1 is scheduled. -/
def frameOutstanding : State :=
  run cameraOn [LiveEvent.start, LiveEvent.startFulfilled (some "s1"), LiveEvent.blob true]

/-- A run in which the loop was stopped while its first frame request was outstanding:
the camera is on, the loop starts with session `s1`, the frame is encoded and sent, and
`stopLiveLoop` is called before the response arrives. -/
def stoppedWithFrameOutstanding : State :=
  run cameraOn
    [LiveEvent.start, LiveEvent.startFulfilled (some "s1"), LiveEvent.blob true, LiveEvent.stop]

/-- A run in which the loop is live with session `s1` and no request is outstanding. -/
def liveRunning : State :=
  run cameraOn
    [LiveEvent.start, LiveEvent.startFulfilled (some "s1"), LiveEvent.blob true,
     LiveEvent.frameFulfilled oneFace]

/-- The page as mounted, before the camera is switched on: no stream, the video element
laid out but without intrinsic size. -/
def cameraOff : State :=
  { cameraOn with
    videoRef := some { clientWidth := 640, clientHeight := 480, videoWidth := 0, videoHeight := 0 }
    streamRef := false
    isPreviewActive := false
    liveStreams := []
    videoSrcObject := false
    streamId := 0
    nextStream := 0 }

/-- The camera on with a video element that has no layout size yet (client size 0x0)
while the stream is 1280x960. -/
def cameraOnWithoutLayout : State :=
  { cameraOn with
    videoRef := some { clientWidth := 0, clientHeight := 0, videoWidth := 1280, videoHeight := 960 } }

/-- A session summary without analysis records. -/
def shortSummary : StopPayload :=
  { frames := 1, duration_seconds := 2, analyses := some [], analysis := none }

/-- A run that leaves a session summary on a page whose camera is off: the loop is live
with session `s1`, `stopCamera` is called, and the session-stop request succeeds. -/
def cameraStoppedWithSummary : State :=
  pageRun liveRunning [PageEvent.stopCamera, PageEvent.live (LiveEvent.stopFulfilled shortSummary)]

end MediaLab

/-! ## `Dashboard.jsx` -/

namespace Dashboard

/-- A record of the overview pool, as far as the counters read it. -/
structure Item where
  id : Nat
  dominant_emotion : Option String
  deriving DecidableEq

/-- One step of the `reduce` that builds `emotionCounter`: records without a dominant
emotion are skipped, the others add one under their emotion, spelled as it is.  The
counter object is a map from its own keys to counts. -/
def countItem (acc : String → Option Nat) (item : Item) : String → Option Nat :=
  match item.dominant_emotion with
  | none => acc
  | some key =>
    if key = "" then acc
    else fun k => if k = key then some ((acc key).getD 0 + 1) else acc k

/-- The field `stats.emotionCounter`. -/
def emotionCounter (overviewPool : List Item) : String → Option Nat :=
  overviewPool.foldl countItem (fun _ => none)

/-- The field `stats.total`. -/
def total (overviewPool : List Item) : Nat :=
  overviewPool.length

/-- The memo `filteredOverview`. -/
def filteredOverview (overviewPool : List Item) (activeEmotion : String) : List Item :=
  if activeEmotion = "all" then overviewPool
  else
    overviewPool.filter (fun item =>
      match item.dominant_emotion with
      | none => false
      | some emotion =>
        if emotion = "" then false
        else MediaLab.toLowerCase emotion == MediaLab.toLowerCase activeEmotion)

/-- The constant `activeEmotionCount`:
`activeEmotion === 'all' ? stats.total : stats.emotionCounter?.[activeEmotion] || 0`. -/
def activeEmotionCount (overviewPool : List Item) (activeEmotion : String) : Nat :=
  if activeEmotion = "all" then total overviewPool
  else (emotionCounter overviewPool activeEmotion).getD 0

end Dashboard

namespace MediaLab

/-! ## Theorems -/

/-! ### Single flight -/

theorem clearOverlay_gate (s : State) :
    (clearOverlay s).pendingBlobs = s.pendingBlobs ∧
    (clearOverlay s).pendingFrames = s.pendingFrames ∧
    (clearOverlay s).liveRequestRef = s.liveRequestRef := by
  unfold clearOverlay
  split <;> simp

theorem closeLiveSession_gate (s : State) :
    (closeLiveSession s).1.pendingBlobs = s.pendingBlobs ∧
    (closeLiveSession s).1.pendingFrames = s.pendingFrames ∧
    (closeLiveSession s).1.liveRequestRef = s.liveRequestRef := by
  unfold closeLiveSession
  split
  · split <;> simp
  · simp

theorem stopLiveLoop_gate (s : State) :
    (stopLiveLoop s).pendingBlobs = s.pendingBlobs ∧
    (stopLiveLoop s).pendingFrames = s.pendingFrames ∧
    (stopLiveLoop s).liveRequestRef = false := by
  unfold stopLiveLoop
  cases s.liveIntervalRef <;> by_cases ht : truthy s.liveSessionIdRef = true <;>
    simp [clearInterval, ht, closeLiveSession_gate, clearOverlay_gate]

theorem drawDetections_gate (s : State) (r : FrameResponse) :
    (drawDetections s r).pendingBlobs = s.pendingBlobs ∧
    (drawDetections s r).pendingFrames = s.pendingFrames ∧
    (drawDetections s r).liveRequestRef = s.liveRequestRef := by
  unfold drawDetections
  split
  · simp only []
    split_ifs <;> simp
  · simp

theorem pushAnalyses_gate (s : State) (l : List AnalysisRecord) :
    (pushAnalyses s l).pendingBlobs = s.pendingBlobs ∧
    (pushAnalyses s l).pendingFrames = s.pendingFrames ∧
    (pushAnalyses s l).liveRequestRef = s.liveRequestRef := by
  unfold pushAnalyses
  split_ifs <;> simp

theorem responseInterceptor_gate (s : State) (e : ApiError) :
    (responseInterceptor s e).pendingBlobs = s.pendingBlobs ∧
    (responseInterceptor s e).pendingFrames = s.pendingFrames ∧
    (responseInterceptor s e).liveRequestRef = s.liveRequestRef := by
  unfold responseInterceptor
  split_ifs <;> simp

theorem captureAndAnalyze_gateMatches (s : State) (h : GateMatches s) :
    GateMatches (captureAndAnalyze s) := by
  unfold GateMatches at *
  unfold captureAndAnalyze
  split
  · split_ifs with h1 h2
    · exact h
    · exact h
    · simp only [Bool.not_eq_true] at h2
      simp only [h2, Bool.toNat_false] at h
      simp only [Bool.toNat_true]
      omega
  · exact h

theorem startLiveLoop_gateMatches (s : State) (h : GateMatches s) :
    GateMatches (startLiveLoop s) := by
  unfold GateMatches at *
  unfold startLiveLoop
  cases s.captureCanvasRef <;> simp only [] <;> split_ifs <;> simpa using h

theorem startLiveLoop_fulfilled_gateMatches (s : State) (sid : Option String)
    (h : GateMatches s) : GateMatches (startLiveLoop_fulfilled s sid) := by
  have h1 : GateMatches (captureAndAnalyze
      { s with
        pendingStarts := s.pendingStarts - 1
        liveSessionId := sid
        liveSessionIdRef := sid
        liveSessionStats := none
        liveSessionSummary := none
        isLiveActive := true
        liveStatus := "IA en vivo: calibrando cámara..."
        liveError := "" }) := captureAndAnalyze_gateMatches _ h
  unfold GateMatches at *
  simpa [startLiveLoop_fulfilled, setInterval] using h1

theorem startLiveLoop_rejected_gateMatches (s : State) (e : ApiError)
    (h : GateMatches s) : GateMatches (startLiveLoop_rejected s e) := by
  unfold GateMatches at *
  simpa [startLiveLoop_rejected, responseInterceptor_gate] using h

theorem captureAndAnalyze_blob_gateMatches (s : State) (ok : Bool)
    (h : GateMatches s) (hp : 0 < s.pendingBlobs) :
    GateMatches (captureAndAnalyze_blob s ok) := by
  unfold GateMatches at *
  unfold captureAndAnalyze_blob
  cases hg : s.liveRequestRef <;> simp only [hg, Bool.toNat_false, Bool.toNat_true] at h
  · omega
  · cases ok <;> simp [hg] <;> omega

theorem captureAndAnalyze_fulfilled_gateMatches (s : State) (r : FrameResponse)
    (h : GateMatches s) (hp : 0 < s.pendingFrames) :
    GateMatches (captureAndAnalyze_fulfilled s r) := by
  unfold GateMatches at *
  unfold captureAndAnalyze_fulfilled
  cases hg : s.liveRequestRef <;> simp only [hg, Bool.toNat_false, Bool.toNat_true] at h
  · omega
  · cases r.session <;> simp [drawDetections_gate] <;> omega

theorem captureAndAnalyze_rejected_gateMatches (s : State) (e : ApiError)
    (h : GateMatches s) (hp : 0 < s.pendingFrames) :
    GateMatches (captureAndAnalyze_rejected s e) := by
  unfold GateMatches at *
  unfold captureAndAnalyze_rejected
  cases hg : s.liveRequestRef <;> simp only [hg, Bool.toNat_false, Bool.toNat_true] at h
  · omega
  · by_cases h4 : e.status = some 400 <;>
      simp [h4, stopLiveLoop_gate, clearOverlay_gate, responseInterceptor_gate] <;> omega

theorem closeLiveSession_fulfilled_gateMatches (s : State) (d : StopPayload)
    (h : GateMatches s) : GateMatches (closeLiveSession_fulfilled s d).1 := by
  unfold GateMatches at *
  unfold closeLiveSession_fulfilled
  simp only []
  split
  · split_ifs <;> simpa [pushAnalyses_gate] using h
  · simpa using h

theorem closeLiveSession_rejected_gateMatches (s : State) (e : ApiError)
    (h : GateMatches s) : GateMatches (closeLiveSession_rejected s e).1 := by
  unfold GateMatches at *
  simpa [closeLiveSession_rejected, responseInterceptor_gate] using h

theorem stopLiveLoop_gateMatches (s : State) (h : GateMatches s)
    (hg : s.liveRequestRef = false) : GateMatches (stopLiveLoop s) := by
  unfold GateMatches at *
  simpa [stopLiveLoop_gate, hg] using h

theorem step_gateMatches (s : State) (e : LiveEvent) (h : GateMatches s)
    (hstop : e = LiveEvent.stop → s.liveRequestRef = false) : GateMatches (step s e) := by
  cases e with
  | start => exact startLiveLoop_gateMatches s h
  | startFulfilled sid =>
    simp only [step]
    split_ifs
    · exact startLiveLoop_fulfilled_gateMatches s sid h
    · exact h
  | startRejected e =>
    simp only [step]
    split_ifs
    · exact startLiveLoop_rejected_gateMatches s e h
    · exact h
  | tick handle =>
    simp only [step]
    split_ifs
    · exact captureAndAnalyze_gateMatches s h
    · exact h
  | blob ok =>
    simp only [step]
    split_ifs with hp
    · exact captureAndAnalyze_blob_gateMatches s ok h hp
    · exact h
  | frameFulfilled r =>
    simp only [step]
    split_ifs with hp
    · exact captureAndAnalyze_fulfilled_gateMatches s r h hp
    · exact h
  | frameRejected e =>
    simp only [step]
    split_ifs with hp
    · exact captureAndAnalyze_rejected_gateMatches s e h hp
    · exact h
  | stop => exact stopLiveLoop_gateMatches s h (hstop rfl)
  | stopFulfilled d =>
    simp only [step]
    split_ifs
    · exact closeLiveSession_fulfilled_gateMatches s d h
    · exact h
  | stopRejected e =>
    simp only [step]
    split_ifs
    · exact closeLiveSession_rejected_gateMatches s e h
    · exact h
  | video element => exact h

theorem stopsBetweenTicks_cons (s : State) (e : LiveEvent) (rest : List LiveEvent)
    (h : stopsBetweenTicks s (e :: rest) = true) :
    (e = LiveEvent.stop → s.liveRequestRef = false) ∧ stopsBetweenTicks (step s e) rest = true := by
  cases e <;> simp_all [stopsBetweenTicks]

theorem run_gateMatches (events : List LiveEvent) :
    ∀ s : State, GateMatches s → stopsBetweenTicks s events = true →
      GateMatches (run s events) := by
  induction events with
  | nil => intro s h _; exact h
  | cons e rest ih =>
    intro s h hs
    obtain ⟨h1, h2⟩ := stopsBetweenTicks_cons s e rest hs
    exact ih (step s e) (step_gateMatches s e h h1) h2

theorem stopsBetweenTicks_initial (events : List LiveEvent) :
    ∀ (s : State) (pre : List LiveEvent), pre <+: events →
      stopsBetweenTicks s events = true → stopsBetweenTicks s pre = true := by
  induction events with
  | nil =>
    intro s pre hpre _
    rw [List.prefix_nil.mp hpre]
    rfl
  | cons e rest ih =>
    intro s pre hpre hs
    cases pre with
    | nil => rfl
    | cons e1 pre1 =>
      obtain ⟨he, hrest⟩ := List.cons_prefix_cons.mp hpre
      subst he
      obtain ⟨h1, h2⟩ := stopsBetweenTicks_cons s e1 rest hs
      have h3 := ih (step s e1) pre1 hrest h2
      cases e1 <;> simp_all [stopsBetweenTicks]

/-- C1, as stated, fails: the camera is on, the loop is started and its first frame is
sent; `stopLiveLoop` is called while that request is outstanding and the session closes;
the loop is started again and its first frame is sent: two analyze-frame requests are
now outstanding. -/
theorem two_frames_outstanding_after_restart :
    (run cameraOn
      [LiveEvent.start, LiveEvent.startFulfilled (some "s1"), LiveEvent.blob true,
       LiveEvent.stop,
       LiveEvent.stopFulfilled { frames := 1, duration_seconds := 2, analyses := some [], analysis := none },
       LiveEvent.start, LiveEvent.startFulfilled (some "s2"), LiveEvent.blob true]).pendingFrames = 2 ∧
    ¬ (∀ events : List LiveEvent, (run cameraOn events).pendingFrames ≤ 1) := by
  refine ⟨by decide, fun h => ?_⟩
  have h2 := h
    [LiveEvent.start, LiveEvent.startFulfilled (some "s1"), LiveEvent.blob true,
     LiveEvent.stop,
     LiveEvent.stopFulfilled { frames := 1, duration_seconds := 2, analyses := some [], analysis := none },
     LiveEvent.start, LiveEvent.startFulfilled (some "s2"), LiveEvent.blob true]
  revert h2
  decide

/-- C1 (amended): from a state where no tick is in progress, along every sequence of
start, stop, timer, encoding and response events in which `stopLiveLoop` is only called
from outside while no tick is in progress, at most one analyze-frame request is sent and
not yet resolved after every prefix of the sequence. -/
theorem single_flight_while_stops_fall_between_ticks (s : State) (events : List LiveEvent)
    (hidle : s.liveRequestRef = false ∧ s.pendingBlobs = 0 ∧ s.pendingFrames = 0)
    (hstops : stopsBetweenTicks s events = true) :
    ∀ pre : List LiveEvent, pre <+: events → (run s pre).pendingFrames ≤ 1 := by
  intro pre hpre
  have h0 : GateMatches s := by
    unfold GateMatches
    simp [hidle.1, hidle.2.1, hidle.2.2]
  have h1 := run_gateMatches pre s h0 (stopsBetweenTicks_initial events s pre hpre hstops)
  unfold GateMatches at h1
  cases hg : (run s pre).liveRequestRef <;> simp [hg] at h1 <;> omega

/-- The amended C1 on a concrete execution: start, first frame sent and answered, a timer
tick whose frame fails with status 500 (the loop stops itself), then a stop from the
user. -/
theorem single_flight_while_stops_fall_between_ticks_witness :
    stopsBetweenTicks cameraOn
      [LiveEvent.start, LiveEvent.startFulfilled (some "s1"), LiveEvent.blob true,
       LiveEvent.tick 1,
       LiveEvent.frameFulfilled { dominant_emotion := "happy", confidence := 1 / 2, detections := none, session := none },
       LiveEvent.tick 1, LiveEvent.blob true,
       LiveEvent.frameRejected { status := some 500, message := none, msg := none },
       LiveEvent.stop] = true ∧
    (run cameraOn
      [LiveEvent.start, LiveEvent.startFulfilled (some "s1"), LiveEvent.blob true,
       LiveEvent.tick 1,
       LiveEvent.frameFulfilled { dominant_emotion := "happy", confidence := 1 / 2, detections := none, session := none },
       LiveEvent.tick 1, LiveEvent.blob true,
       LiveEvent.frameRejected { status := some 500, message := none, msg := none },
       LiveEvent.stop]).pendingFrames ≤ 1 :=
  ⟨by decide,
   single_flight_while_stops_fall_between_ticks cameraOn _ (by decide) (by decide) _
    (List.prefix_refl _)⟩

/-! ### Responses that arrive after a stop -/

theorem drawDetections_eq (s : State) (r : FrameResponse) :
    drawDetections s r =
      { s with
        overlayRef := (drawDetections s r).overlayRef
        liveStatus := (drawDetections s r).liveStatus } := by
  unfold drawDetections
  split
  · simp only []
    split_ifs <;> rfl
  · rfl

theorem clearOverlay_eq (s : State) :
    clearOverlay s = { s with overlayRef := s.overlayRef.map (fun c => { c with ops := [] }) } := by
  unfold clearOverlay
  cases h : s.overlayRef with
  | none =>
    simp only [Option.map_none']
    rw [← h]
  | some c => rfl

/-- Everything `stopLiveLoop` does before its `await`, field by field. -/
theorem stopLiveLoop_eq (s : State) :
    stopLiveLoop s =
      { s with
        timers :=
          match s.liveIntervalRef with
          | some id => s.timers.filter (fun t => t.handle != id)
          | none => s.timers
        liveIntervalRef := none
        liveRequestRef := false
        isLiveActive := false
        liveStatus := "IA en espera"
        liveResult := none
        liveSessionStats := if truthy s.liveSessionIdRef then s.liveSessionStats else none
        overlayRef := s.overlayRef.map (fun c => { c with ops := [] })
        sentStops :=
          if truthy s.liveSessionIdRef then s.sentStops ++ [s.liveSessionIdRef.getD ""]
          else s.sentStops
        pendingStops :=
          if truthy s.liveSessionIdRef then s.pendingStops + 1 else s.pendingStops } := by
  unfold stopLiveLoop
  rcases hi : s.liveIntervalRef with _ | id <;> rcases hs : s.liveSessionIdRef with _ | sid
  · simp [truthy, hs, clearOverlay_eq, ← hi]
  · by_cases he : sid = "" <;>
      simp [truthy, hs, he, clearOverlay_eq, closeLiveSession, ← hi]
  · simp [truthy, hs, clearOverlay_eq, clearInterval]
  · by_cases he : sid = "" <;>
      simp [truthy, hs, he, clearOverlay_eq, closeLiveSession, clearInterval]

theorem responseInterceptor_eq (s : State) (e : ApiError) :
    responseInterceptor s e =
      { s with
        unauthorized :=
          if shouldLogout e then
            s.unauthorized ++ [if rawMessage e != "" then rawMessage e else "session-expired"]
          else s.unauthorized } := by
  unfold responseInterceptor
  split_ifs <;> rfl

theorem pushAnalyses_eq (s : State) (l : List AnalysisRecord) :
    pushAnalyses s l =
      { s with
        latestResults := (pushAnalyses s l).latestResults
        history := (pushAnalyses s l).history
        historyRefreshes := (pushAnalyses s l).historyRefreshes } := by
  unfold pushAnalyses
  split_ifs <;> rfl

theorem closeLiveSession_fulfilled_eq (s : State) (d : StopPayload) :
    (closeLiveSession_fulfilled s d).1 =
      { s with
        pendingStops := s.pendingStops - 1
        liveSessionSummary := some (normalizeAnalysesPayload d)
        liveSessionStats := some (LiveStats.summary (normalizeAnalysesPayload d))
        liveSessionId := none
        liveSessionIdRef := none
        latestResults := (closeLiveSession_fulfilled s d).1.latestResults
        history := (closeLiveSession_fulfilled s d).1.history
        historyRefreshes := (closeLiveSession_fulfilled s d).1.historyRefreshes } := by
  unfold closeLiveSession_fulfilled
  simp only []
  split
  · split_ifs
    · rw [pushAnalyses_eq]
    · rfl
  · rfl

theorem shouldLogout_status (e : ApiError) (h : shouldLogout e = true) :
    e.status = some 401 ∨ e.status = some 422 := by
  unfold shouldLogout at h
  simp only [Bool.or_eq_true, Bool.and_eq_true, beq_iff_eq] at h
  rcases h with h | ⟨h, _⟩
  · exact Or.inl h
  · exact Or.inr h

/-- The callback `drawDetections` writes nothing but the overlay and the status line. -/
theorem drawDetections_fields (s : State) (r : FrameResponse) :
    (drawDetections s r).videoRef = s.videoRef ∧
    (drawDetections s r).streamRef = s.streamRef ∧
    (drawDetections s r).captureCanvasRef = s.captureCanvasRef ∧
    (drawDetections s r).liveIntervalRef = s.liveIntervalRef ∧
    (drawDetections s r).liveRequestRef = s.liveRequestRef ∧
    (drawDetections s r).webcamChannelRef = s.webcamChannelRef ∧
    (drawDetections s r).liveSessionIdRef = s.liveSessionIdRef ∧
    (drawDetections s r).historyMediaType = s.historyMediaType ∧
    (drawDetections s r).historyEmotion = s.historyEmotion ∧
    (drawDetections s r).history = s.history ∧
    (drawDetections s r).latestResults = s.latestResults ∧
    (drawDetections s r).isPreviewActive = s.isPreviewActive ∧
    (drawDetections s r).isLiveActive = s.isLiveActive ∧
    (drawDetections s r).liveResult = s.liveResult ∧
    (drawDetections s r).liveError = s.liveError ∧
    (drawDetections s r).liveSessionId = s.liveSessionId ∧
    (drawDetections s r).liveSessionStats = s.liveSessionStats ∧
    (drawDetections s r).liveSessionSummary = s.liveSessionSummary ∧
    (drawDetections s r).measureText = s.measureText ∧
    (drawDetections s r).timers = s.timers ∧
    (drawDetections s r).nextTimer = s.nextTimer ∧
    (drawDetections s r).pendingStarts = s.pendingStarts ∧
    (drawDetections s r).pendingBlobs = s.pendingBlobs ∧
    (drawDetections s r).pendingFrames = s.pendingFrames ∧
    (drawDetections s r).pendingStops = s.pendingStops ∧
    (drawDetections s r).sentStarts = s.sentStarts ∧
    (drawDetections s r).sentFrames = s.sentFrames ∧
    (drawDetections s r).sentStops = s.sentStops ∧
    (drawDetections s r).historyRefreshes = s.historyRefreshes ∧
    (drawDetections s r).unauthorized = s.unauthorized := by
  rw [drawDetections_eq]
  simp

theorem drawDetections_overlay_congr (s1 s2 : State) (r : FrameResponse)
    (ho : s1.overlayRef = s2.overlayRef) (hv : s1.videoRef = s2.videoRef)
    (hm : s1.measureText = s2.measureText) :
    (drawDetections s1 r).overlayRef = (drawDetections s2 r).overlayRef := by
  unfold drawDetections
  rw [ho, hv, hm]
  split
  · simp only []
    split_ifs <;> simp [ho]
  · exact ho

/-- C2, as stated, fails: the loop is stopped while a frame request is outstanding (live
result empty, overlay blank, no session stats); when the response then arrives it is
applied: the live result and the session stats are set and three shapes are painted on
the overlay. -/
theorem late_frame_response_is_applied :
    stoppedWithFrameOutstanding.pendingFrames = 1 ∧
    stoppedWithFrameOutstanding.isLiveActive = false ∧
    stoppedWithFrameOutstanding.liveResult.isSome = false ∧
    stoppedWithFrameOutstanding.liveSessionStats.isSome = false ∧
    stoppedWithFrameOutstanding.overlayRef.map (fun o => o.ops.length) = some 0 ∧
    (step stoppedWithFrameOutstanding (LiveEvent.frameFulfilled oneFace)).liveResult.isSome = true ∧
    (step stoppedWithFrameOutstanding (LiveEvent.frameFulfilled oneFace)).liveSessionStats.isSome = true ∧
    (step stoppedWithFrameOutstanding (LiveEvent.frameFulfilled oneFace)).overlayRef.map
      (fun o => o.ops.length) = some 3 := by
  decide

/-- C2 (amended): a successful analyze-frame response that arrives after `stopLiveLoop`
does not bring the loop back (the live flag stays false, no timer handle is stored, the
scheduled timers, the bound session id and the requests sent so far are unchanged), but
it is not discarded: it becomes the live result, clears the error, sets the session
stats when it carries a `session` object, and the overlay is repainted from it by
`drawDetections`. -/
theorem late_frame_response_keeps_loop_stopped_but_is_shown (s : State) (r : FrameResponse) :
    (captureAndAnalyze_fulfilled (stopLiveLoop s) r).isLiveActive = false ∧
    (captureAndAnalyze_fulfilled (stopLiveLoop s) r).liveIntervalRef = none ∧
    (captureAndAnalyze_fulfilled (stopLiveLoop s) r).timers = (stopLiveLoop s).timers ∧
    (captureAndAnalyze_fulfilled (stopLiveLoop s) r).liveSessionIdRef = s.liveSessionIdRef ∧
    (captureAndAnalyze_fulfilled (stopLiveLoop s) r).sentFrames = s.sentFrames ∧
    (captureAndAnalyze_fulfilled (stopLiveLoop s) r).sentStops = (stopLiveLoop s).sentStops ∧
    (captureAndAnalyze_fulfilled (stopLiveLoop s) r).liveResult = some r ∧
    (captureAndAnalyze_fulfilled (stopLiveLoop s) r).liveError = "" ∧
    (∀ v, r.session = some v →
      (captureAndAnalyze_fulfilled (stopLiveLoop s) r).liveSessionStats =
        some (LiveStats.session v)) ∧
    (captureAndAnalyze_fulfilled (stopLiveLoop s) r).overlayRef =
      (drawDetections (stopLiveLoop s) r).overlayRef := by
  have hlast : (captureAndAnalyze_fulfilled (stopLiveLoop s) r).overlayRef =
      (drawDetections (stopLiveLoop s) r).overlayRef := by
    unfold captureAndAnalyze_fulfilled
    cases r.session <;> simp only [] <;>
      exact drawDetections_overlay_congr _ _ r rfl rfl rfl
  refine ⟨?_, ?_, ?_, ?_, ?_, ?_, ?_, ?_, ?_, hlast⟩ <;>
    unfold captureAndAnalyze_fulfilled <;>
    cases hsess : r.session <;>
    simp [drawDetections_fields, stopLiveLoop_eq]

/-- The amended C2 on a concrete run: the response with one detection arrives after the
loop of session `s1` was stopped. -/
theorem late_frame_response_keeps_loop_stopped_but_is_shown_witness :
    (captureAndAnalyze_fulfilled (stopLiveLoop frameOutstanding) oneFace).isLiveActive = false ∧
    (captureAndAnalyze_fulfilled (stopLiveLoop frameOutstanding) oneFace).liveIntervalRef = none ∧
    (captureAndAnalyze_fulfilled (stopLiveLoop frameOutstanding) oneFace).liveResult.isSome = true ∧
    (captureAndAnalyze_fulfilled (stopLiveLoop frameOutstanding) oneFace).liveSessionStats =
      some (LiveStats.session { frames := 1, counts := [("happy", 1)] }) := by
  have h := late_frame_response_keeps_loop_stopped_but_is_shown frameOutstanding oneFace
  exact ⟨h.1, h.2.1, by rw [h.2.2.2.2.2.2.1]; rfl, h.2.2.2.2.2.2.2.2.1 _ rfl⟩

/-! ### The overlay geometry -/

theorem intrinsicWidth_ne_zero (v : VideoElement) (h : displayWidth v ≠ 0) :
    intrinsicWidth v ≠ 0 := by
  unfold intrinsicWidth numOr
  split_ifs with h1
  · exact h1
  · exact h

theorem intrinsicHeight_ne_zero (v : VideoElement) (h : displayHeight v ≠ 0) :
    intrinsicHeight v ≠ 0 := by
  unfold intrinsicHeight numOr
  split_ifs with h1
  · exact h1
  · exact h

/-- C3: with an overlay and a video element whose display size is nonzero (the intrinsic
size used is then nonzero too) and a non-empty list of detections, `drawDetections`
resizes the overlay to the display size and, for every detection box `(x, y, w, h)`,
strokes the rectangle `(x*dw/iw, y*dh/ih, w*dw/iw, h*dh/ih)`. -/
theorem drawDetections_strokes_scaled_boxes (s : State) (overlay : Overlay)
    (v : VideoElement) (r : FrameResponse) (ds : List Detection)
    (ho : s.overlayRef = some overlay) (hv : s.videoRef = some v)
    (hdw : displayWidth v ≠ 0) (hdh : displayHeight v ≠ 0)
    (hd : r.detections = some ds) (hne : ds ≠ []) :
    ∃ o : Overlay, (drawDetections s r).overlayRef = some o ∧
      o.width = displayWidth v ∧ o.height = displayHeight v ∧
      ∀ d ∈ ds,
        DrawOp.strokeRect "#22d3ee"
          (d.x * (displayWidth v : ℚ) / (intrinsicWidth v : ℚ))
          (d.y * (displayHeight v : ℚ) / (intrinsicHeight v : ℚ))
          (d.w * (displayWidth v : ℚ) / (intrinsicWidth v : ℚ))
          (d.h * (displayHeight v : ℚ) / (intrinsicHeight v : ℚ)) ∈ o.ops := by
  have hiw := intrinsicWidth_ne_zero v hdw
  have hih := intrinsicHeight_ne_zero v hdh
  have hlen : ds.length ≠ 0 := fun h => hne (List.length_eq_zero.mp h)
  unfold drawDetections
  rw [ho, hv]
  simp only [hdw, hdh, hiw, hih, or_self, if_false, hd, Option.getD_some, hlen]
  refine ⟨_, rfl, rfl, rfl, ?_⟩
  intro d hmem
  simp only [List.mem_flatMap]
  refine ⟨d, hmem, ?_⟩
  simp [drawDetection, mul_div_assoc]

/-- The example of C3: a 640x480 display of a 1280x960 stream and the box
`(100, 100, 200, 150)` give the rectangle `(50, 50, 100, 75)`. -/
theorem drawDetections_strokes_scaled_boxes_example :
    ∃ o : Overlay, (drawDetections cameraOn oneFace).overlayRef = some o ∧
      o.width = 640 ∧ o.height = 480 ∧
      DrawOp.strokeRect "#22d3ee" 50 50 100 75 ∈ o.ops := by
  obtain ⟨o, h1, h2, h3, h4⟩ :=
    drawDetections_strokes_scaled_boxes cameraOn
      { width := 300, height := 150, styleWidth := none, styleHeight := none,
        lineWidth := 1, fontPx := 10, ops := [] }
      { clientWidth := 640, clientHeight := 480, videoWidth := 1280, videoHeight := 960 }
      oneFace
      [{ x := 100, y := 100, w := 200, h := 150, label := "happy", confidence := 1 / 2 }]
      rfl rfl (by decide) (by decide) rfl (List.cons_ne_nil _ _)
  refine ⟨o, h1, h2, h3, ?_⟩
  have h5 := h4 _ (List.mem_singleton_self _)
  norm_num [displayWidth, displayHeight, intrinsicWidth, intrinsicHeight, numOr] at h5
  exact h5

/-! ### Failed frame requests -/

/-- C4: when an analyze-frame request fails with status 400, the handler leaves the
scheduled timers, the stored timer handle, the live flag and the bound session id as
they are, sends no session-stop request, dispatches no logout event, leaves the error
field empty and puts the message into the status line only. -/
theorem frame_status_400_keeps_loop_running (s : State) (e : ApiError)
    (h400 : e.status = some 400) :
    (captureAndAnalyze_rejected s e).timers = s.timers ∧
    (captureAndAnalyze_rejected s e).liveIntervalRef = s.liveIntervalRef ∧
    (captureAndAnalyze_rejected s e).isLiveActive = s.isLiveActive ∧
    (captureAndAnalyze_rejected s e).liveSessionIdRef = s.liveSessionIdRef ∧
    (captureAndAnalyze_rejected s e).liveSessionId = s.liveSessionId ∧
    (captureAndAnalyze_rejected s e).sentStops = s.sentStops ∧
    (captureAndAnalyze_rejected s e).pendingStops = s.pendingStops ∧
    (captureAndAnalyze_rejected s e).unauthorized = s.unauthorized ∧
    (captureAndAnalyze_rejected s e).liveError = "" ∧
    (captureAndAnalyze_rejected s e).liveStatus = "IA en vivo: " ++ frameApiMessage e ∧
    (captureAndAnalyze_rejected s e).liveResult = s.liveResult ∧
    (captureAndAnalyze_rejected s e).liveSessionStats = s.liveSessionStats := by
  have hl : shouldLogout e = false := by
    simp [shouldLogout, h400]
  unfold captureAndAnalyze_rejected
  simp [h400, hl, clearOverlay_eq, responseInterceptor_eq]

/-- C4 on a concrete failure: status 400 with message `No face detected` while the first
frame of session `s1` is outstanding. -/
theorem frame_status_400_keeps_loop_running_witness :
    (captureAndAnalyze_rejected frameOutstanding
      { status := some 400, message := some "No face detected", msg := none }).liveIntervalRef = some 1 ∧
    (captureAndAnalyze_rejected frameOutstanding
      { status := some 400, message := some "No face detected", msg := none }).isLiveActive = true ∧
    (captureAndAnalyze_rejected frameOutstanding
      { status := some 400, message := some "No face detected", msg := none }).sentStops = [] ∧
    (captureAndAnalyze_rejected frameOutstanding
      { status := some 400, message := some "No face detected", msg := none }).liveError = "" ∧
    (captureAndAnalyze_rejected frameOutstanding
      { status := some 400, message := some "No face detected", msg := none }).liveStatus =
        "IA en vivo: No face detected" := by
  have h := frame_status_400_keeps_loop_running frameOutstanding
    { status := some 400, message := some "No face detected", msg := none } rfl
  refine ⟨h.2.1.trans (by decide), h.2.2.1.trans (by decide), h.2.2.2.2.2.1.trans (by decide),
    h.2.2.2.2.2.2.2.2.1, h.2.2.2.2.2.2.2.2.2.1.trans (by decide)⟩

/-- Everything the handler of a failed frame request does when the status is not 400,
in terms of `stopLiveLoop`. -/
theorem captureAndAnalyze_rejected_eq (s : State) (e : ApiError) (h : e.status ≠ some 400) :
    captureAndAnalyze_rejected s e =
      stopLiveLoop
        { responseInterceptor s e with
          pendingFrames := s.pendingFrames - 1
          liveError := frameApiMessage e } := by
  unfold captureAndAnalyze_rejected
  simp only [h, if_false]
  simp [stopLiveLoop_eq, responseInterceptor_eq]

/-- C5: when an analyze-frame request fails with status 401 while session `sid` is
bound, the handler sends exactly one session-stop request, for `sid`, cancels the timer
whose handle is stored (none is left scheduled when that was the only one), clears the
handle, the gate and the live flag; and when that session-stop request resolves, with a
summary or with an error, the session id is cleared and no further session-stop request
has been sent. -/
theorem frame_status_401_stops_session_once (s : State) (e : ApiError) (sid : String)
    (h401 : e.status = some 401) (hsid : s.liveSessionIdRef = some sid) (hne : sid ≠ "") :
    (captureAndAnalyze_rejected s e).sentStops = s.sentStops ++ [sid] ∧
    (captureAndAnalyze_rejected s e).pendingStops = s.pendingStops + 1 ∧
    (captureAndAnalyze_rejected s e).liveIntervalRef = none ∧
    (∀ id, s.liveIntervalRef = some id →
      ∀ t ∈ (captureAndAnalyze_rejected s e).timers, t.handle ≠ id) ∧
    ((∀ t ∈ s.timers, s.liveIntervalRef = some t.handle) →
      (captureAndAnalyze_rejected s e).timers = []) ∧
    (captureAndAnalyze_rejected s e).isLiveActive = false ∧
    (captureAndAnalyze_rejected s e).liveRequestRef = false ∧
    (captureAndAnalyze_rejected s e).liveStatus = "IA en espera" ∧
    (∀ d : StopPayload,
      (closeLiveSession_fulfilled (captureAndAnalyze_rejected s e) d).1.liveSessionIdRef = none ∧
      (closeLiveSession_fulfilled (captureAndAnalyze_rejected s e) d).1.liveSessionId = none ∧
      (closeLiveSession_fulfilled (captureAndAnalyze_rejected s e) d).1.sentStops =
        s.sentStops ++ [sid]) ∧
    (∀ e2 : ApiError,
      (closeLiveSession_rejected (captureAndAnalyze_rejected s e) e2).1.liveSessionIdRef = none ∧
      (closeLiveSession_rejected (captureAndAnalyze_rejected s e) e2).1.liveSessionId = none ∧
      (closeLiveSession_rejected (captureAndAnalyze_rejected s e) e2).1.sentStops =
        s.sentStops ++ [sid]) := by
  have hs : e.status ≠ some 400 := by rw [h401]; decide
  have ht : truthy (some sid) = true := by simp [truthy, hne]
  rw [captureAndAnalyze_rejected_eq s e hs, stopLiveLoop_eq]
  refine ⟨?_, ?_, ?_, ?_, ?_, ?_, ?_, ?_, ?_, ?_⟩
  · simp [responseInterceptor_eq, hsid, ht]
  · simp [responseInterceptor_eq, hsid, ht]
  · simp
  · intro id hid t hmem
    simp [responseInterceptor_eq, hid] at hmem
    exact hmem.2
  · intro hall
    cases hi : s.liveIntervalRef with
    | none =>
      cases hts : s.timers with
      | nil => simp [responseInterceptor_eq, hi, hts]
      | cons t rest =>
        have := hall t (by simp [hts])
        simp [hi] at this
    | some id =>
      simp only [responseInterceptor_eq, hi, List.filter_eq_nil_iff]
      intro t hmem
      have := hall t hmem
      simp [hi] at this
      simp [this]
  · simp
  · simp
  · simp
  · intro d
    rw [closeLiveSession_fulfilled_eq]
    simp [responseInterceptor_eq, hsid, ht]
  · intro e2
    simp [closeLiveSession_rejected, responseInterceptor_eq, hsid, ht]

/-- C5 on a concrete failure: status 401 while the first frame of session `s1` is
outstanding and timer 1 is the only scheduled timer. -/
theorem frame_status_401_stops_session_once_witness :
    frameOutstanding.liveSessionIdRef = some "s1" ∧
    (captureAndAnalyze_rejected frameOutstanding
      { status := some 401, message := some "Token has expired", msg := none }).sentStops = ["s1"] ∧
    (captureAndAnalyze_rejected frameOutstanding
      { status := some 401, message := some "Token has expired", msg := none }).timers = [] ∧
    (captureAndAnalyze_rejected frameOutstanding
      { status := some 401, message := some "Token has expired", msg := none }).liveIntervalRef = none ∧
    (captureAndAnalyze_rejected frameOutstanding
      { status := some 401, message := some "Token has expired", msg := none }).isLiveActive = false := by
  have h := frame_status_401_stops_session_once frameOutstanding
    { status := some 401, message := some "Token has expired", msg := none } "s1"
    rfl (by decide) (by decide)
  exact ⟨by decide, h.1.trans (by decide), h.2.2.2.2.1 (by decide), h.2.2.1, h.2.2.2.2.2.1⟩

/-- C6 at a failing input: a frame request of session `s1` fails with status 401 and the
payload message `Token has expired`.  The interceptor classifies the failure as expired
and the loop stops, but the error shown is the raw payload message, not the text asking
to log in again; the `catch` block of `startLiveLoop` shows that text for the same
failure. -/
theorem frame_status_401_shows_payload_message :
    shouldLogout { status := some 401, message := some "Token has expired", msg := none } = true ∧
    (captureAndAnalyze_rejected frameOutstanding
      { status := some 401, message := some "Token has expired", msg := none }).liveIntervalRef =
        none ∧
    (captureAndAnalyze_rejected frameOutstanding
      { status := some 401, message := some "Token has expired", msg := none }).liveError =
        "Token has expired" ∧
    (captureAndAnalyze_rejected frameOutstanding
      { status := some 401, message := some "Token has expired", msg := none }).liveError ≠
        "Tu sesión expiró. Inicia sesión nuevamente para usar la cámara en vivo." ∧
    (startLiveLoop_rejected (startLiveLoop cameraOn)
      { status := some 401, message := some "Token has expired", msg := none }).liveError =
        "Tu sesión expiró. Inicia sesión nuevamente para usar la cámara en vivo." := by
  decide

/-- What the handler of a failed frame does with a failure the interceptor classifies as
expired (status 401, or status 422 and a message containing `subject must be a string`):
the interceptor dispatches the `auth:unauthorized` event (with the message, or
`session-expired` when there is none), the loop stops (stored timer cancelled, handle,
gate and live flag cleared, a session-stop request sent for a bound session), and the
error field holds the payload message, or the generic frame-failure text when the
payload has none. -/
theorem expired_frame_failure_logs_out_and_stops (s : State) (e : ApiError)
    (hexp : shouldLogout e = true) :
    (captureAndAnalyze_rejected s e).unauthorized =
      s.unauthorized ++ [if rawMessage e != "" then rawMessage e else "session-expired"] ∧
    (captureAndAnalyze_rejected s e).liveIntervalRef = none ∧
    (∀ id, s.liveIntervalRef = some id →
      ∀ t ∈ (captureAndAnalyze_rejected s e).timers, t.handle ≠ id) ∧
    (captureAndAnalyze_rejected s e).liveRequestRef = false ∧
    (captureAndAnalyze_rejected s e).isLiveActive = false ∧
    (∀ sid, s.liveSessionIdRef = some sid → sid ≠ "" →
      (captureAndAnalyze_rejected s e).sentStops = s.sentStops ++ [sid]) ∧
    (captureAndAnalyze_rejected s e).liveError = frameApiMessage e ∧
    (∀ m, e.message = some m → m ≠ "" → (captureAndAnalyze_rejected s e).liveError = m) := by
  have hs : e.status ≠ some 400 := by
    rcases shouldLogout_status e hexp with h | h <;> rw [h] <;> decide
  rw [captureAndAnalyze_rejected_eq s e hs, stopLiveLoop_eq]
  refine ⟨?_, ?_, ?_, ?_, ?_, ?_, ?_, ?_⟩
  · simp [responseInterceptor_eq, hexp]
  · simp
  · intro id hid t hmem
    simp [responseInterceptor_eq, hid] at hmem
    exact hmem.2
  · simp
  · simp
  · intro sid hsid hne
    simp [responseInterceptor_eq, hsid, truthy, hne]
  · simp
  · intro m hm hne
    simp [frameApiMessage, orElse, truthy, hm, hne]

/-- The handler of a failed frame on a concrete expired failure: status 422 with the
message `Subject must be a string` while the first frame of session `s1` is outstanding. -/
theorem expired_frame_failure_logs_out_and_stops_witness :
    shouldLogout { status := some 422, message := none, msg := some "Subject must be a string" } = true ∧
    (captureAndAnalyze_rejected frameOutstanding
      { status := some 422, message := none, msg := some "Subject must be a string" }).unauthorized =
        ["Subject must be a string"] ∧
    (captureAndAnalyze_rejected frameOutstanding
      { status := some 422, message := none, msg := some "Subject must be a string" }).liveIntervalRef = none ∧
    (captureAndAnalyze_rejected frameOutstanding
      { status := some 422, message := none, msg := some "Subject must be a string" }).liveError =
        "No se pudo analizar el fotograma de la cámara." := by
  have h := expired_frame_failure_logs_out_and_stops frameOutstanding
    { status := some 422, message := none, msg := some "Subject must be a string" } (by decide)
  exact ⟨by decide, h.1.trans (by decide), h.2.1, h.2.2.2.2.2.2.1.trans (by decide)⟩

/-- C7, as stated, fails on the message: a network-level failure (no status, no payload,
error text `Network Error`) and a status-500 failure whose payload carries its text in
`msg` both stop the loop, but the error shown is the fixed generic text, not the
failure's own message. -/
theorem frame_failure_message_replaced_by_generic_text :
    (captureAndAnalyze_rejected frameOutstanding
      { status := none, message := none, msg := none, errorMessage := "Network Error" }).liveError =
        "No se pudo analizar el fotograma de la cámara." ∧
    (captureAndAnalyze_rejected frameOutstanding
      { status := none, message := none, msg := none, errorMessage := "Network Error" }).liveError ≠
        "Network Error" ∧
    (captureAndAnalyze_rejected frameOutstanding
      { status := some 500, message := none, msg := some "database unavailable",
        errorMessage := "Request failed with status code 500" }).liveError =
        "No se pudo analizar el fotograma de la cámara." ∧
    (captureAndAnalyze_rejected frameOutstanding
      { status := some 500, message := none, msg := some "database unavailable",
        errorMessage := "Request failed with status code 500" }).liveError ≠
        "database unavailable" := by
  decide

/-- C7 (amended): when an analyze-frame request fails with a status other than 400, or
with no status at all, the handler stops the loop (stored timer cancelled and none left
when it was the only one, handle, gate and live flag cleared), closes a bound session
(one session-stop request for its id; none when no session is bound), and sets the error
field to the `message` of the payload when it has a non-empty one and to the fixed
generic frame-failure text otherwise, whatever the payload's `msg` and the text of the
error object are. -/
theorem other_frame_failure_stops_loop_and_shows_message (s : State) (e : ApiError)
    (hs : e.status ≠ some 400) :
    (captureAndAnalyze_rejected s e).liveIntervalRef = none ∧
    (∀ id, s.liveIntervalRef = some id →
      ∀ t ∈ (captureAndAnalyze_rejected s e).timers, t.handle ≠ id) ∧
    ((∀ t ∈ s.timers, s.liveIntervalRef = some t.handle) →
      (captureAndAnalyze_rejected s e).timers = []) ∧
    (captureAndAnalyze_rejected s e).liveRequestRef = false ∧
    (captureAndAnalyze_rejected s e).isLiveActive = false ∧
    (∀ sid, s.liveSessionIdRef = some sid → sid ≠ "" →
      (captureAndAnalyze_rejected s e).sentStops = s.sentStops ++ [sid] ∧
      (∀ d : StopPayload,
        (closeLiveSession_fulfilled (captureAndAnalyze_rejected s e) d).1.liveSessionIdRef = none) ∧
      (∀ e2 : ApiError,
        (closeLiveSession_rejected (captureAndAnalyze_rejected s e) e2).1.liveSessionIdRef = none)) ∧
    (truthy s.liveSessionIdRef = false →
      (captureAndAnalyze_rejected s e).sentStops = s.sentStops) ∧
    (captureAndAnalyze_rejected s e).liveError = frameApiMessage e ∧
    (∀ m, e.message = some m → m ≠ "" → (captureAndAnalyze_rejected s e).liveError = m) ∧
    (truthy e.message = false →
      (captureAndAnalyze_rejected s e).liveError =
        "No se pudo analizar el fotograma de la cámara.") := by
  rw [captureAndAnalyze_rejected_eq s e hs, stopLiveLoop_eq]
  refine ⟨?_, ?_, ?_, ?_, ?_, ?_, ?_, ?_, ?_, ?_⟩
  · simp
  · intro id hid t hmem
    simp [responseInterceptor_eq, hid] at hmem
    exact hmem.2
  · intro hall
    cases hi : s.liveIntervalRef with
    | none =>
      cases hts : s.timers with
      | nil => simp [responseInterceptor_eq, hi, hts]
      | cons t rest =>
        have := hall t (by simp [hts])
        simp [hi] at this
    | some id =>
      simp only [responseInterceptor_eq, hi, List.filter_eq_nil_iff]
      intro t hmem
      have := hall t hmem
      simp [hi] at this
      simp [this]
  · simp
  · simp
  · intro sid hsid hne
    refine ⟨?_, ?_, ?_⟩
    · simp [responseInterceptor_eq, hsid, truthy, hne]
    · intro d
      rw [closeLiveSession_fulfilled_eq]
    · intro e2
      simp [closeLiveSession_rejected, responseInterceptor_eq]
  · intro hf
    simp [responseInterceptor_eq, hf]
  · simp
  · intro m hm hne
    simp [frameApiMessage, orElse, truthy, hm, hne]
  · intro hf
    simp [frameApiMessage, orElse, hf]

/-- The amended C7 on a concrete failure: a network-level failure (no status, no payload)
while the first frame of session `s1` is outstanding. -/
theorem other_frame_failure_stops_loop_and_shows_message_witness :
    (captureAndAnalyze_rejected frameOutstanding
      { status := none, message := none, msg := none }).liveIntervalRef = none ∧
    (captureAndAnalyze_rejected frameOutstanding
      { status := none, message := none, msg := none }).timers = [] ∧
    (captureAndAnalyze_rejected frameOutstanding
      { status := none, message := none, msg := none }).isLiveActive = false ∧
    (captureAndAnalyze_rejected frameOutstanding
      { status := none, message := none, msg := none }).sentStops = ["s1"] ∧
    (captureAndAnalyze_rejected frameOutstanding
      { status := none, message := none, msg := none }).liveError =
        "No se pudo analizar el fotograma de la cámara." := by
  have h := other_frame_failure_stops_loop_and_shows_message frameOutstanding
    { status := none, message := none, msg := none } (by decide)
  exact ⟨h.1, h.2.2.1 (by decide), h.2.2.2.2.1,
    ((h.2.2.2.2.2.1 "s1" (by decide) (by decide)).1).trans (by decide),
    h.2.2.2.2.2.2.2.2.2 (by decide)⟩

/-! ### Closing the session -/

/-- C8: `closeLiveSession` without a bound session id returns `null` at once and changes
nothing (no session-stop request); with a bound id it sends one session-stop request for
that id and waits; when the request succeeds the normalized summary is stored and
returned, when it fails `null` is returned, and in both cases the session id is `null`
afterwards and no further request has been sent. -/
theorem closeLiveSession_cases (s : State) :
    (truthy s.liveSessionIdRef = false → closeLiveSession s = (s, Async.done none)) ∧
    (∀ sid, s.liveSessionIdRef = some sid → sid ≠ "" →
      (closeLiveSession s).2 = Async.awaiting ∧
      (closeLiveSession s).1.sentStops = s.sentStops ++ [sid] ∧
      (closeLiveSession s).1.pendingStops = s.pendingStops + 1) ∧
    (∀ d : StopPayload,
      (closeLiveSession_fulfilled s d).2 = some (normalizeAnalysesPayload d) ∧
      (closeLiveSession_fulfilled s d).1.liveSessionSummary = some (normalizeAnalysesPayload d) ∧
      (closeLiveSession_fulfilled s d).1.liveSessionIdRef = none ∧
      (closeLiveSession_fulfilled s d).1.liveSessionId = none ∧
      (closeLiveSession_fulfilled s d).1.sentStops = s.sentStops) ∧
    (∀ e : ApiError,
      (closeLiveSession_rejected s e).2 = none ∧
      (closeLiveSession_rejected s e).1.liveSessionIdRef = none ∧
      (closeLiveSession_rejected s e).1.liveSessionId = none ∧
      (closeLiveSession_rejected s e).1.sentStops = s.sentStops) := by
  refine ⟨?_, ?_, ?_, ?_⟩
  · intro h
    unfold closeLiveSession
    cases hs : s.liveSessionIdRef with
    | none => rfl
    | some sid =>
      have hsid : sid = "" := by simpa [truthy, hs] using h
      simp [hsid]
  · intro sid hs hne
    simp [closeLiveSession, hs, hne]
  · intro d
    refine ⟨rfl, ?_, ?_, ?_, ?_⟩ <;> rw [closeLiveSession_fulfilled_eq]
  · intro e
    simp [closeLiveSession_rejected, responseInterceptor_eq]

/-- C8 on concrete states: with the camera on and no session nothing is sent; with session
`s1` bound one session-stop request for `s1` is sent. -/
theorem closeLiveSession_cases_witness :
    closeLiveSession cameraOn = (cameraOn, Async.done none) ∧
    (closeLiveSession frameOutstanding).1.sentStops = ["s1"] := by
  have h := closeLiveSession_cases cameraOn
  have h2 := closeLiveSession_cases frameOutstanding
  exact ⟨h.1 (by decide), ((h2.2.1 "s1" (by decide) (by decide)).2.1).trans (by decide)⟩

/-- C9 at a failing input: the loop is live with session `s1` and `stopLiveLoop` is
called twice before the first session-stop request resolves.  After the first call the
session id is still bound, so the second call sends a second session-stop request for
`s1`; the same happens when `closeLiveSession` is called twice directly. -/
theorem second_stop_sends_second_request :
    liveRunning.sentStops = [] ∧
    (run liveRunning [LiveEvent.stop]).liveSessionIdRef = some "s1" ∧
    (run liveRunning [LiveEvent.stop]).pendingStops = 1 ∧
    (run liveRunning [LiveEvent.stop, LiveEvent.stop]).sentStops = ["s1", "s1"] ∧
    (run liveRunning [LiveEvent.stop, LiveEvent.stop]).pendingStops = 2 ∧
    (closeLiveSession (closeLiveSession liveRunning).1).1.sentStops = ["s1", "s1"] := by
  decide

/-! ### Stopping while the session-start request is pending -/

theorem captureAndAnalyze_eq (s : State) :
    captureAndAnalyze s =
      { s with
        liveRequestRef := (captureAndAnalyze s).liveRequestRef
        captureCanvasRef := (captureAndAnalyze s).captureCanvasRef
        pendingBlobs := (captureAndAnalyze s).pendingBlobs } := by
  unfold captureAndAnalyze
  split
  · split_ifs <;> rfl
  · rfl

/-- C10, as stated, fails: with the camera on, `startLiveLoop` is called, `stopLiveLoop`
is called while the session-start request is pending, and the request then succeeds;
both calls have finished, yet timer 1 is scheduled with its handle stored, the live flag
is set and session `s1` is bound. -/
theorem stop_does_not_cancel_pending_start :
    (run cameraOn [LiveEvent.start, LiveEvent.stop]).pendingStarts = 1 ∧
    (run cameraOn [LiveEvent.start, LiveEvent.stop, LiveEvent.startFulfilled (some "s1")]).pendingStarts = 0 ∧
    (run cameraOn [LiveEvent.start, LiveEvent.stop, LiveEvent.startFulfilled (some "s1")]).pendingStops = 0 ∧
    (run cameraOn [LiveEvent.start, LiveEvent.stop, LiveEvent.startFulfilled (some "s1")]).timers.map
      (fun t => (t.handle, t.delay)) = [(1, 1800)] ∧
    (run cameraOn [LiveEvent.start, LiveEvent.stop, LiveEvent.startFulfilled (some "s1")]).liveIntervalRef =
      some 1 ∧
    (run cameraOn [LiveEvent.start, LiveEvent.stop, LiveEvent.startFulfilled (some "s1")]).isLiveActive =
      true ∧
    (run cameraOn [LiveEvent.start, LiveEvent.stop, LiveEvent.startFulfilled (some "s1")]).liveSessionIdRef =
      some "s1" := by
  decide

/-- What `startLiveLoop` does when the camera is on and nothing of the loop is set. -/
theorem startLiveLoop_sends (s : State)
    (hcam : s.streamRef = true ∧ s.videoRef.isSome = true)
    (hidle : s.liveIntervalRef = none ∧ s.liveRequestRef = false ∧
      truthy s.liveSessionIdRef = false) :
    startLiveLoop s =
      { s with
        captureCanvasRef := (startLiveLoop s).captureCanvasRef
        sentStarts := s.sentStarts ++ [s.webcamChannelRef]
        pendingStarts := s.pendingStarts + 1 } := by
  obtain ⟨h1, h2⟩ := hcam
  obtain ⟨h3, h4, h5⟩ := hidle
  have h2n : s.videoRef.isNone = false := by
    cases hv : s.videoRef <;> simp_all
  unfold startLiveLoop
  cases hc : s.captureCanvasRef <;> simp [h1, h2n, h3, h4, h5]

/-- C10 (amended): from a state with the camera on and the loop idle (no timer, no
session, gate clear), when `stopLiveLoop` is called while the session-start request of
`startLiveLoop` is pending, the stop schedules nothing and sends no session-stop request
and the start request stays pending; if that request then fails, no timer is scheduled
and the loop is idle; if it succeeds, the start is not cancelled: the session is bound,
the live flag is set and one repeating timer of 1800 ms is scheduled with its handle
stored. -/
theorem stop_while_start_pending (s : State)
    (hcam : s.streamRef = true ∧ s.videoRef.isSome = true)
    (hidle : s.timers = [] ∧ s.liveIntervalRef = none ∧ s.liveRequestRef = false ∧
      truthy s.liveSessionIdRef = false) :
    (run s [LiveEvent.start, LiveEvent.stop]).timers = [] ∧
    (run s [LiveEvent.start, LiveEvent.stop]).sentStops = s.sentStops ∧
    (run s [LiveEvent.start, LiveEvent.stop]).pendingStarts = s.pendingStarts + 1 ∧
    (∀ e : ApiError,
      (run s [LiveEvent.start, LiveEvent.stop, LiveEvent.startRejected e]).timers = [] ∧
      (run s [LiveEvent.start, LiveEvent.stop, LiveEvent.startRejected e]).liveIntervalRef = none ∧
      (run s [LiveEvent.start, LiveEvent.stop, LiveEvent.startRejected e]).isLiveActive = false ∧
      (run s [LiveEvent.start, LiveEvent.stop, LiveEvent.startRejected e]).liveSessionIdRef =
        s.liveSessionIdRef ∧
      (run s [LiveEvent.start, LiveEvent.stop, LiveEvent.startRejected e]).pendingStarts =
        s.pendingStarts) ∧
    (∀ sid : Option String,
      (run s [LiveEvent.start, LiveEvent.stop, LiveEvent.startFulfilled sid]).timers =
        [{ handle := s.nextTimer + 1, delay := 1800 }] ∧
      (run s [LiveEvent.start, LiveEvent.stop, LiveEvent.startFulfilled sid]).liveIntervalRef =
        some (s.nextTimer + 1) ∧
      (run s [LiveEvent.start, LiveEvent.stop, LiveEvent.startFulfilled sid]).isLiveActive = true ∧
      (run s [LiveEvent.start, LiveEvent.stop, LiveEvent.startFulfilled sid]).liveSessionIdRef = sid ∧
      (run s [LiveEvent.start, LiveEvent.stop, LiveEvent.startFulfilled sid]).pendingStarts =
        s.pendingStarts) := by
  obtain ⟨h1, h2, h3, h4⟩ := hidle
  have hstart := startLiveLoop_sends s hcam ⟨h2, h3, h4⟩
  have hstop : stopLiveLoop (startLiveLoop s) =
      { s with
        captureCanvasRef := (startLiveLoop s).captureCanvasRef
        sentStarts := s.sentStarts ++ [s.webcamChannelRef]
        pendingStarts := s.pendingStarts + 1
        liveIntervalRef := none
        liveRequestRef := false
        isLiveActive := false
        liveStatus := "IA en espera"
        liveResult := none
        liveSessionStats := none
        overlayRef := s.overlayRef.map (fun c => { c with ops := [] }) } := by
    rw [hstart, stopLiveLoop_eq]
    simp [h1, h2, h4]
  refine ⟨?_, ?_, ?_, ?_, ?_⟩
  · simp [run, step, hstop, h1]
  · simp [run, step, hstop]
  · simp [run, step, hstop]
  · intro e
    simp [run, step, hstop, startLiveLoop_rejected, responseInterceptor_eq, h1]
  · intro sid
    simp only [run, List.foldl, step, hstop]
    simp only [Nat.lt_add_left_iff_pos, Nat.zero_lt_succ, if_true, startLiveLoop_fulfilled,
      setInterval]
    rw [captureAndAnalyze_eq]
    simp [h1]

/-- The amended C10 with the camera on: after start, stop and a failed session-start
request nothing is scheduled; after start, stop and a successful one timer 1 is
scheduled. -/
theorem stop_while_start_pending_witness :
    (run cameraOn [LiveEvent.start, LiveEvent.stop,
      LiveEvent.startRejected { status := some 500, message := none, msg := none }]).timers = [] ∧
    (run cameraOn [LiveEvent.start, LiveEvent.stop, LiveEvent.startFulfilled (some "s1")]).liveIntervalRef =
      some 1 := by
  have h := stop_while_start_pending cameraOn (by decide) (by decide)
  exact ⟨(h.2.2.2.1 _).1, (h.2.2.2.2 _).2.1⟩

/-! ### Starting the loop -/

/-- C11: when the session-start request fails, the handler binds no session id,
schedules no timer, starts no tick (gate, pending encodings and sent frames unchanged),
leaves the live flag and the status line as they are, and sets the error to the
re-authenticate text when the status is 401 or 422 (what `startLiveLoop` takes for an
expired credential) and otherwise to the server's `message`, else its `msg`, else the
generic text. -/
theorem session_start_failure_starts_nothing (s : State) (e : ApiError) :
    (startLiveLoop_rejected s e).liveSessionIdRef = s.liveSessionIdRef ∧
    (startLiveLoop_rejected s e).liveSessionId = s.liveSessionId ∧
    (startLiveLoop_rejected s e).timers = s.timers ∧
    (startLiveLoop_rejected s e).liveIntervalRef = s.liveIntervalRef ∧
    (startLiveLoop_rejected s e).isLiveActive = s.isLiveActive ∧
    (startLiveLoop_rejected s e).liveStatus = s.liveStatus ∧
    (startLiveLoop_rejected s e).liveRequestRef = s.liveRequestRef ∧
    (startLiveLoop_rejected s e).pendingBlobs = s.pendingBlobs ∧
    (startLiveLoop_rejected s e).pendingFrames = s.pendingFrames ∧
    (startLiveLoop_rejected s e).sentFrames = s.sentFrames ∧
    ((e.status = some 401 ∨ e.status = some 422) →
      (startLiveLoop_rejected s e).liveError =
        "Tu sesión expiró. Inicia sesión nuevamente para usar la cámara en vivo.") ∧
    (e.status ≠ some 401 → e.status ≠ some 422 →
      (∀ m, e.message = some m → m ≠ "" → (startLiveLoop_rejected s e).liveError = m) ∧
      (truthy e.message = false → ∀ m, e.msg = some m → m ≠ "" →
        (startLiveLoop_rejected s e).liveError = m) ∧
      (truthy e.message = false → truthy e.msg = false →
        (startLiveLoop_rejected s e).liveError = "No se pudo iniciar la sesión en vivo.")) := by
  have hsome : ∀ m : String, m ≠ "" → truthy (some m) = true := by
    intro m hne
    simp [truthy, hne]
  unfold startLiveLoop_rejected
  refine ⟨?_, ?_, ?_, ?_, ?_, ?_, ?_, ?_, ?_, ?_, ?_, ?_⟩
  · simp [responseInterceptor_eq]
  · simp [responseInterceptor_eq]
  · simp [responseInterceptor_eq]
  · simp [responseInterceptor_eq]
  · simp [responseInterceptor_eq]
  · simp [responseInterceptor_eq]
  · simp [responseInterceptor_eq]
  · simp [responseInterceptor_eq]
  · simp [responseInterceptor_eq]
  · simp [responseInterceptor_eq]
  · intro h
    simp [h]
  · intro h1 h2
    refine ⟨?_, ?_, ?_⟩
    · intro m hm hne
      simp [h1, h2, orElse, hm, hsome m hne]
    · intro hf m hm hne
      simp [h1, h2, orElse, hf, hm, hsome m hne]
    · intro hf1 hf2
      simp [h1, h2, orElse, hf1, hf2]

/-- C11 on a concrete run: with the camera on, the session-start request fails with
status 500 and message `backend down`; nothing is bound or scheduled and the message is
the error. -/
theorem session_start_failure_starts_nothing_witness :
    (run cameraOn [LiveEvent.start,
      LiveEvent.startRejected { status := some 500, message := some "backend down", msg := none }]
      ).liveSessionIdRef = none ∧
    (run cameraOn [LiveEvent.start,
      LiveEvent.startRejected { status := some 500, message := some "backend down", msg := none }]
      ).timers = [] ∧
    (startLiveLoop_rejected (startLiveLoop cameraOn)
      { status := some 500, message := some "backend down", msg := none }).liveError =
        "backend down" := by
  have h := session_start_failure_starts_nothing (startLiveLoop cameraOn)
    { status := some 500, message := some "backend down", msg := none }
  exact ⟨by decide, by decide,
    (h.2.2.2.2.2.2.2.2.2.2.2 (by decide) (by decide)).1 "backend down" rfl (by decide)⟩

/-- C12, as stated, fails: called on the page without a camera stream, `startLiveLoop`
sends nothing and schedules nothing, but it does change the state: the error field,
empty before, now tells to switch the camera on. -/
theorem startLiveLoop_without_camera_sets_error :
    cameraOff.streamRef = false ∧
    cameraOff.liveError = "" ∧
    (startLiveLoop cameraOff).liveError = "Activa la cámara antes de iniciar la IA en vivo." ∧
    (startLiveLoop cameraOff).sentStarts = [] ∧
    (startLiveLoop cameraOff).timers = [] := by
  decide

/-- C12 (amended): `startLiveLoop` sends no session-start request and schedules no timer
when no camera stream or video element is available or when the loop is already active
(a timer handle is stored, the gate is set, or a session id is bound).  Without a camera
it sets the error field to the switch-the-camera-on text and changes nothing else; when
already active it leaves the state unchanged, except that it creates the capture canvas
if that is missing. -/
theorem startLiveLoop_without_camera_or_when_active (s : State) :
    ((s.streamRef = false ∨ s.videoRef = none) →
      startLiveLoop s =
        { s with liveError := "Activa la cámara antes de iniciar la IA en vivo." }) ∧
    (s.streamRef = true → s.videoRef.isSome = true →
      (s.liveIntervalRef.isSome = true ∨ s.liveRequestRef = true ∨
        truthy s.liveSessionIdRef = true) →
      (s.captureCanvasRef.isSome = true → startLiveLoop s = s) ∧
      (s.captureCanvasRef = none →
        startLiveLoop s = { s with captureCanvasRef := some { width := 300, height := 150 } })) ∧
    ((s.streamRef = false ∨ s.videoRef = none ∨ s.liveIntervalRef.isSome = true ∨
        s.liveRequestRef = true ∨ truthy s.liveSessionIdRef = true) →
      (startLiveLoop s).sentStarts = s.sentStarts ∧
      (startLiveLoop s).pendingStarts = s.pendingStarts ∧
      (startLiveLoop s).timers = s.timers ∧
      (startLiveLoop s).liveIntervalRef = s.liveIntervalRef) := by
  refine ⟨?_, ?_, ?_⟩
  · intro h
    unfold startLiveLoop
    rcases h with h | h <;> simp [h]
  · intro h1 h2 h3
    have h2n : s.videoRef.isNone = false := by
      cases hv : s.videoRef <;> simp_all
    have hact : (s.liveIntervalRef.isSome || s.liveRequestRef || truthy s.liveSessionIdRef) = true := by
      rcases h3 with h | h | h <;> simp [h]
    constructor
    · intro hc
      unfold startLiveLoop
      cases hcc : s.captureCanvasRef with
      | none => simp [hcc] at hc
      | some c => simp [h1, h2n, hact]
    · intro hc
      unfold startLiveLoop
      simp [h1, h2n, hc, hact]
  · intro h
    unfold startLiveLoop
    by_cases hcam : (!s.streamRef || s.videoRef.isNone) = true
    · simp [hcam]
    · have hact : (s.liveIntervalRef.isSome || s.liveRequestRef || truthy s.liveSessionIdRef) = true := by
        simp only [Bool.or_eq_true, Bool.not_eq_true', Option.isNone_iff_eq_none, not_or] at hcam
        rcases h with h | h | h | h | h
        · exact absurd h hcam.1
        · exact absurd h hcam.2
        · simp [h]
        · simp [h]
        · simp [h]
      cases hcc : s.captureCanvasRef <;> simp [hcam, hact]

/-- The amended C12 on concrete states: without a camera only the error changes; with
the loop live and the capture canvas present nothing changes. -/
theorem startLiveLoop_without_camera_or_when_active_witness :
    startLiveLoop cameraOff =
      { cameraOff with liveError := "Activa la cámara antes de iniciar la IA en vivo." } ∧
    startLiveLoop liveRunning = liveRunning := by
  have h1 := startLiveLoop_without_camera_or_when_active cameraOff
  have h2 := startLiveLoop_without_camera_or_when_active liveRunning
  exact ⟨h1.1 (Or.inl (by decide)),
    (h2.2.1 (by decide) (by decide) (Or.inl (by decide))).1 (by decide)⟩

/-! ### Stopping the loop -/

/-- C13: from every state, `stopLiveLoop` clears the stored timer handle and cancels the
timer it named (with no handle stored the scheduled timers are untouched), clears the
gate, sets the status line to the idle text, clears the live result and the overlay,
clears the live flag, and calls `closeLiveSession` exactly when a session id is bound:
then one session-stop request for that id is sent, otherwise none is sent and the
session stats are reset. -/
theorem stopLiveLoop_effects (s : State) :
    (stopLiveLoop s).liveIntervalRef = none ∧
    (∀ id, s.liveIntervalRef = some id →
      (stopLiveLoop s).timers = s.timers.filter (fun t => t.handle != id) ∧
      ∀ t ∈ (stopLiveLoop s).timers, t.handle ≠ id) ∧
    (s.liveIntervalRef = none → (stopLiveLoop s).timers = s.timers) ∧
    (stopLiveLoop s).liveRequestRef = false ∧
    (stopLiveLoop s).liveStatus = "IA en espera" ∧
    (stopLiveLoop s).liveResult = none ∧
    (stopLiveLoop s).overlayRef = s.overlayRef.map (fun c => { c with ops := [] }) ∧
    (stopLiveLoop s).isLiveActive = false ∧
    (∀ sid, s.liveSessionIdRef = some sid → sid ≠ "" →
      (stopLiveLoop s).sentStops = s.sentStops ++ [sid] ∧
      (stopLiveLoop s).pendingStops = s.pendingStops + 1 ∧
      (stopLiveLoop s).liveSessionStats = s.liveSessionStats) ∧
    (truthy s.liveSessionIdRef = false →
      (stopLiveLoop s).sentStops = s.sentStops ∧
      (stopLiveLoop s).pendingStops = s.pendingStops ∧
      (stopLiveLoop s).liveSessionStats = none) := by
  rw [stopLiveLoop_eq]
  refine ⟨rfl, ?_, ?_, rfl, rfl, rfl, rfl, rfl, ?_, ?_⟩
  · intro id hid
    refine ⟨by simp [hid], ?_⟩
    intro t hmem
    simp [hid] at hmem
    exact hmem.2
  · intro hid
    simp [hid]
  · intro sid hsid hne
    simp [hsid, truthy, hne]
  · intro hf
    simp [hf]

/-- C13 on concrete states: on the page that never started the loop nothing is sent; on
the live loop of session `s1` timer 1 is cancelled and one session-stop request is sent. -/
theorem stopLiveLoop_effects_witness :
    (stopLiveLoop cameraOn).sentStops = [] ∧
    (stopLiveLoop cameraOn).timers = [] ∧
    (stopLiveLoop liveRunning).sentStops = ["s1"] ∧
    (stopLiveLoop liveRunning).timers = [] := by
  have h1 := stopLiveLoop_effects cameraOn
  have h2 := stopLiveLoop_effects liveRunning
  exact ⟨(h1.2.2.2.2.2.2.2.2.2 (by decide)).1.trans (by decide),
    (h1.2.2.1 (by decide)).trans (by decide),
    (h2.2.2.2.2.2.2.2.2.1 "s1" (by decide) (by decide)).1.trans (by decide),
    ((h2.2.1 1 (by decide)).1).trans (by decide)⟩

/-! ### What a tick sends -/

theorem startLiveLoop_sentFrames (s : State) :
    (startLiveLoop s).sentFrames = s.sentFrames := by
  unfold startLiveLoop
  cases s.captureCanvasRef <;> simp only [] <;> split_ifs <;> rfl

theorem captureAndAnalyze_fulfilled_sentFrames (s : State) (r : FrameResponse) :
    (captureAndAnalyze_fulfilled s r).sentFrames = s.sentFrames := by
  unfold captureAndAnalyze_fulfilled
  cases r.session <;> simp [drawDetections_fields]

theorem captureAndAnalyze_rejected_sentFrames (s : State) (e : ApiError) :
    (captureAndAnalyze_rejected s e).sentFrames = s.sentFrames := by
  unfold captureAndAnalyze_rejected
  by_cases h : e.status = some 400 <;>
    simp [h, stopLiveLoop_eq, clearOverlay_eq, responseInterceptor_eq]

theorem startLiveLoop_fulfilled_sentFrames (s : State) (sid : Option String) :
    (startLiveLoop_fulfilled s sid).sentFrames = s.sentFrames := by
  unfold startLiveLoop_fulfilled
  simp only [setInterval]
  rw [captureAndAnalyze_eq]

/-- C14, as stated, fails: the loop starts with session `s1` and its first tick begins
encoding; `stopLiveLoop` is called and the session closes, so no session id is bound;
the encoded frame then arrives and the tick sends its request all the same, without a
`session_id`. -/
theorem frame_sent_without_session :
    (run cameraOn
      [LiveEvent.start, LiveEvent.startFulfilled (some "s1"), LiveEvent.stop,
       LiveEvent.stopFulfilled shortSummary]).liveSessionIdRef = none ∧
    (run cameraOn
      [LiveEvent.start, LiveEvent.startFulfilled (some "s1"), LiveEvent.stop,
       LiveEvent.stopFulfilled shortSummary]).sentFrames = [] ∧
    (run cameraOn
      [LiveEvent.start, LiveEvent.startFulfilled (some "s1"), LiveEvent.stop,
       LiveEvent.stopFulfilled shortSummary, LiveEvent.blob true]).sentFrames =
      [{ channel := "webcam", session_id := none }] := by
  decide

/-- C14 (amended): whatever happens to the live loop, at most one analyze-frame request
is sent by it, and that request carries the channel stored at that moment and, as
`session_id`, the session id bound at that moment; when no session id is bound at that
moment the request is sent without a `session_id`. -/
theorem frame_request_carries_current_session (s : State) (e : LiveEvent) :
    (step s e).sentFrames = s.sentFrames ∨
    ((step s e).sentFrames =
        s.sentFrames ++ [analyzeWebcamFrame s.webcamChannelRef s.liveSessionIdRef] ∧
      (∀ sid, s.liveSessionIdRef = some sid → sid ≠ "" →
        (analyzeWebcamFrame s.webcamChannelRef s.liveSessionIdRef).session_id = some sid) ∧
      (truthy s.liveSessionIdRef = false →
        (analyzeWebcamFrame s.webcamChannelRef s.liveSessionIdRef).session_id = none)) := by
  cases e with
  | start => exact Or.inl (startLiveLoop_sentFrames s)
  | startFulfilled sid =>
    left
    simp only [step]
    split_ifs
    · exact startLiveLoop_fulfilled_sentFrames s sid
    · rfl
  | startRejected e =>
    left
    simp only [step]
    split_ifs
    · simp [startLiveLoop_rejected, responseInterceptor_eq]
    · rfl
  | tick handle =>
    left
    simp only [step]
    split_ifs
    · rw [captureAndAnalyze_eq]
    · rfl
  | blob ok =>
    simp only [step]
    split_ifs
    · cases ok
      · left
        simp [captureAndAnalyze_blob]
      · right
        refine ⟨by simp [captureAndAnalyze_blob], ?_, ?_⟩
        · intro sid hsid hne
          simp [analyzeWebcamFrame, hsid, truthy, hne]
        · intro hf
          simp [analyzeWebcamFrame, hf]
    · exact Or.inl rfl
  | frameFulfilled r =>
    left
    simp only [step]
    split_ifs
    · exact captureAndAnalyze_fulfilled_sentFrames s r
    · rfl
  | frameRejected e =>
    left
    simp only [step]
    split_ifs
    · exact captureAndAnalyze_rejected_sentFrames s e
    · rfl
  | stop =>
    left
    simp [step, stopLiveLoop_eq]
  | stopFulfilled d =>
    left
    simp only [step]
    split_ifs
    · rw [closeLiveSession_fulfilled_eq]
    · rfl
  | stopRejected e =>
    left
    simp only [step]
    split_ifs
    · simp [closeLiveSession_rejected, responseInterceptor_eq]
    · rfl
  | video element => exact Or.inl rfl

/-- The amended C14 on a concrete step: the encoded first frame of session `s1` arrives
and the request carries `s1`. -/
theorem frame_request_carries_current_session_witness :
    (step (run cameraOn [LiveEvent.start, LiveEvent.startFulfilled (some "s1")])
      (LiveEvent.blob true)).sentFrames = [{ channel := "webcam", session_id := some "s1" }] := by
  rcases frame_request_carries_current_session
    (run cameraOn [LiveEvent.start, LiveEvent.startFulfilled (some "s1")])
    (LiveEvent.blob true) with h | h
  · exact absurd h (by decide)
  · exact h.1.trans (by decide)

/-! ### A successful start -/

/-- C15, as stated, fails on the timing: when the session-start request succeeds, the
repeating timer is scheduled in the same step that begins the immediate tick, while that
tick is still in progress (gate set, frame being encoded), so its period runs from the
start of the loop; when the tick completes later, the same timer is still the only one
scheduled: it is not rescheduled from the completion of the tick. -/
theorem interval_scheduled_before_first_tick_completes :
    (run cameraOn [LiveEvent.start, LiveEvent.startFulfilled (some "s1")]).timers =
      [{ handle := 1, delay := 1800 }] ∧
    (run cameraOn [LiveEvent.start, LiveEvent.startFulfilled (some "s1")]).liveRequestRef = true ∧
    (run cameraOn [LiveEvent.start, LiveEvent.startFulfilled (some "s1")]).pendingBlobs = 1 ∧
    (run cameraOn [LiveEvent.start, LiveEvent.startFulfilled (some "s1"), LiveEvent.blob true,
      LiveEvent.frameFulfilled oneFace]).liveRequestRef = false ∧
    (run cameraOn [LiveEvent.start, LiveEvent.startFulfilled (some "s1"), LiveEvent.blob true,
      LiveEvent.frameFulfilled oneFace]).timers = [{ handle := 1, delay := 1800 }] := by
  decide

/-- C15 (amended): when the session-start request succeeds, `startLiveLoop` stores the
returned session id (state and ref), resets the session stats and summary, sets the live
flag, the calibrating status and an empty error, calls the tick exactly once, and in the
same step schedules one repeating timer with a period of 1800 ms (by `setInterval`, so
counted from that moment) whose handle it stores.  The one immediate tick starts
encoding a frame when the video has a width, the capture canvas exists and the gate is
clear, and is skipped otherwise. -/
theorem successful_start_binds_session_ticks_once_and_schedules (s : State)
    (sid : Option String) :
    (startLiveLoop_fulfilled s sid).liveSessionId = sid ∧
    (startLiveLoop_fulfilled s sid).liveSessionIdRef = sid ∧
    (startLiveLoop_fulfilled s sid).liveSessionStats = none ∧
    (startLiveLoop_fulfilled s sid).liveSessionSummary = none ∧
    (startLiveLoop_fulfilled s sid).isLiveActive = true ∧
    (startLiveLoop_fulfilled s sid).liveStatus = "IA en vivo: calibrando cámara..." ∧
    (startLiveLoop_fulfilled s sid).liveError = "" ∧
    (startLiveLoop_fulfilled s sid).timers =
      s.timers ++ [{ handle := s.nextTimer + 1, delay := 1800 }] ∧
    (startLiveLoop_fulfilled s sid).liveIntervalRef = some (s.nextTimer + 1) ∧
    (startLiveLoop_fulfilled s sid).sentFrames = s.sentFrames ∧
    (∀ v c, s.videoRef = some v → v.videoWidth ≠ 0 → s.captureCanvasRef = some c →
      s.liveRequestRef = false →
      (startLiveLoop_fulfilled s sid).pendingBlobs = s.pendingBlobs + 1 ∧
      (startLiveLoop_fulfilled s sid).liveRequestRef = true) ∧
    ((s.liveRequestRef = true ∨ s.captureCanvasRef = none ∨ s.videoRef = none ∨
        s.videoRef.map (fun v => v.videoWidth) = some 0) →
      (startLiveLoop_fulfilled s sid).pendingBlobs = s.pendingBlobs ∧
      (startLiveLoop_fulfilled s sid).liveRequestRef = s.liveRequestRef) := by
  refine ⟨?_, ?_, ?_, ?_, ?_, ?_, ?_, ?_, ?_, startLiveLoop_fulfilled_sentFrames s sid, ?_, ?_⟩
  · simp only [startLiveLoop_fulfilled, setInterval]
    rw [captureAndAnalyze_eq]
  · simp only [startLiveLoop_fulfilled, setInterval]
    rw [captureAndAnalyze_eq]
  · simp only [startLiveLoop_fulfilled, setInterval]
    rw [captureAndAnalyze_eq]
  · simp only [startLiveLoop_fulfilled, setInterval]
    rw [captureAndAnalyze_eq]
  · simp only [startLiveLoop_fulfilled, setInterval]
    rw [captureAndAnalyze_eq]
  · simp only [startLiveLoop_fulfilled, setInterval]
    rw [captureAndAnalyze_eq]
  · simp only [startLiveLoop_fulfilled, setInterval]
    rw [captureAndAnalyze_eq]
  · simp only [startLiveLoop_fulfilled, setInterval]
    rw [captureAndAnalyze_eq]
  · simp only [startLiveLoop_fulfilled, setInterval]
    rw [captureAndAnalyze_eq]
  · intro v c hv hw hc hg
    simp [startLiveLoop_fulfilled, setInterval, captureAndAnalyze, hv, hw, hc, hg]
  · intro h
    simp only [startLiveLoop_fulfilled, setInterval, captureAndAnalyze]
    rcases h with h | h | h | h
    · cases hv : s.videoRef <;> cases hc : s.captureCanvasRef <;> simp [h]
    · cases hv : s.videoRef <;> simp [h]
    · simp [h]
    · cases hv : s.videoRef with
      | none => simp
      | some v =>
        have hw : v.videoWidth = 0 := by simpa [hv] using h
        cases hc : s.captureCanvasRef <;> simp [hw]

/-- The amended C15 with the camera on: session `s1` is bound, the first tick is
encoding and timer 1 is scheduled with 1800 ms. -/
theorem successful_start_binds_session_ticks_once_and_schedules_witness :
    (startLiveLoop_fulfilled (startLiveLoop cameraOn) (some "s1")).liveSessionIdRef = some "s1" ∧
    (startLiveLoop_fulfilled (startLiveLoop cameraOn) (some "s1")).timers =
      [{ handle := 1, delay := 1800 }] ∧
    (startLiveLoop_fulfilled (startLiveLoop cameraOn) (some "s1")).pendingBlobs = 1 := by
  have h := successful_start_binds_session_ticks_once_and_schedules (startLiveLoop cameraOn)
    (some "s1")
  exact ⟨h.2.1, h.2.2.2.2.2.2.2.1.trans (by decide),
    ((h.2.2.2.2.2.2.2.2.2.2.1
      { clientWidth := 640, clientHeight := 480, videoWidth := 1280, videoHeight := 960 }
      { width := 300, height := 150 } (by decide) (by decide) (by decide) (by decide)).1).trans
      (by decide)⟩

/-! ### The overlay: unusable geometry, empty results, labels -/

/-- C16, as stated, fails: the video element has no layout size (`clientWidth` and
`clientHeight` are 0) but the stream is 1280x960; `drawDetections` falls back to the
intrinsic size, resizes the overlay to 1280x960 and paints the detection. -/
theorem drawDetections_falls_back_to_intrinsic_size :
    cameraOnWithoutLayout.videoRef.map (fun v => (v.clientWidth, v.clientHeight)) = some (0, 0) ∧
    cameraOnWithoutLayout.overlayRef.map (fun o => (o.width, o.height, o.ops.length)) =
      some (300, 150, 0) ∧
    (drawDetections cameraOnWithoutLayout oneFace).overlayRef.map
      (fun o => (o.width, o.height, o.ops.length)) = some (1280, 960, 3) := by
  decide

theorem numOr_eq_zero (a b : Nat) : numOr a b = 0 ↔ a = 0 ∧ b = 0 := by
  unfold numOr
  split_ifs with h
  · constructor
    · intro h0
      exact absurd h0 h
    · intro h0
      exact absurd h0.1 h
  · simp only [ne_eq, not_not] at h
    simp [h]

/-- C16 (amended): `drawDetections` is a no-op (the whole state, overlay and status line
included, is unchanged) when the width it would use is zero, that is when `clientWidth`
and `videoWidth` are both zero, or when the height is, that is when `clientHeight` and
`videoHeight` are both zero; a zero client size alone is replaced by the intrinsic size
and a zero intrinsic size alone by the client size. -/
theorem drawDetections_noop_without_size (s : State) (v : VideoElement) (r : FrameResponse)
    (hv : s.videoRef = some v)
    (hzero : (v.clientWidth = 0 ∧ v.videoWidth = 0) ∨ (v.clientHeight = 0 ∧ v.videoHeight = 0)) :
    drawDetections s r = s ∧
    (displayWidth v = 0 ↔ v.clientWidth = 0 ∧ v.videoWidth = 0) ∧
    (displayHeight v = 0 ↔ v.clientHeight = 0 ∧ v.videoHeight = 0) ∧
    (intrinsicWidth v = 0 ↔ v.clientWidth = 0 ∧ v.videoWidth = 0) ∧
    (intrinsicHeight v = 0 ↔ v.clientHeight = 0 ∧ v.videoHeight = 0) := by
  have hw : displayWidth v = 0 ↔ v.clientWidth = 0 ∧ v.videoWidth = 0 := numOr_eq_zero _ _
  have hh : displayHeight v = 0 ↔ v.clientHeight = 0 ∧ v.videoHeight = 0 := numOr_eq_zero _ _
  have hiw : intrinsicWidth v = 0 ↔ v.clientWidth = 0 ∧ v.videoWidth = 0 := by
    unfold intrinsicWidth
    rw [numOr_eq_zero, hw]
    tauto
  have hih : intrinsicHeight v = 0 ↔ v.clientHeight = 0 ∧ v.videoHeight = 0 := by
    unfold intrinsicHeight
    rw [numOr_eq_zero, hh]
    tauto
  refine ⟨?_, hw, hh, hiw, hih⟩
  have hd : displayWidth v = 0 ∨ displayHeight v = 0 := by
    rcases hzero with h | h
    · exact Or.inl (hw.mpr h)
    · exact Or.inr (hh.mpr h)
  unfold drawDetections
  rw [hv]
  cases s.overlayRef with
  | none => rfl
  | some o =>
    simp only []
    rw [if_pos]
    rcases hd with h | h
    · exact Or.inl h
    · exact Or.inr (Or.inl h)

/-- The amended C16 before the camera delivers frames with no layout either: a video
element of size 0x0 showing nothing leaves the page as it is. -/
theorem drawDetections_noop_without_size_witness :
    drawDetections
      { cameraOn with
        videoRef := some { clientWidth := 0, clientHeight := 0, videoWidth := 0, videoHeight := 0 } }
      oneFace =
    { cameraOn with
      videoRef := some { clientWidth := 0, clientHeight := 0, videoWidth := 0, videoHeight := 0 } } :=
  (drawDetections_noop_without_size _
    { clientWidth := 0, clientHeight := 0, videoWidth := 0, videoHeight := 0 } oneFace rfl
    (Or.inl ⟨rfl, rfl⟩)).1

/-- C17: with an overlay and a video element of usable size, a result whose `detections`
list is empty or missing makes `drawDetections` resize and clear the overlay, paint
nothing on it, and set the status line to the searching text; nothing else changes. -/
theorem drawDetections_without_detections_searches (s : State) (overlay : Overlay)
    (v : VideoElement) (r : FrameResponse)
    (ho : s.overlayRef = some overlay) (hv : s.videoRef = some v)
    (hdw : displayWidth v ≠ 0) (hdh : displayHeight v ≠ 0)
    (hd : r.detections = none ∨ r.detections = some []) :
    (drawDetections s r).liveStatus = "IA en vivo: buscando rostros..." ∧
    (∃ o : Overlay, (drawDetections s r).overlayRef = some o ∧
      o.width = displayWidth v ∧ o.height = displayHeight v ∧ o.ops = []) ∧
    drawDetections s r =
      { s with
        overlayRef := (drawDetections s r).overlayRef
        liveStatus := "IA en vivo: buscando rostros..." } := by
  have hiw := intrinsicWidth_ne_zero v hdw
  have hih := intrinsicHeight_ne_zero v hdh
  have hlen : (r.detections.getD []).length = 0 := by
    rcases hd with h | h <;> simp [h]
  have hstatus : (drawDetections s r).liveStatus = "IA en vivo: buscando rostros..." := by
    unfold drawDetections
    rw [ho, hv]
    simp only [hdw, hdh, hiw, hih, or_self, if_false, hlen, if_true]
  refine ⟨hstatus, ?_, ?_⟩
  · unfold drawDetections
    rw [ho, hv]
    simp only [hdw, hdh, hiw, hih, or_self, if_false, hlen, if_true]
    exact ⟨_, rfl, rfl, rfl, rfl⟩
  · conv_lhs => rw [drawDetections_eq]
    rw [hstatus]

/-- C17 with the camera on (640x480 display) and a response without detections. -/
theorem drawDetections_without_detections_searches_witness :
    (drawDetections cameraOn
      { dominant_emotion := "neutral", confidence := 0, detections := some [], session := none }
      ).liveStatus = "IA en vivo: buscando rostros..." ∧
    ∃ o : Overlay,
      (drawDetections cameraOn
        { dominant_emotion := "neutral", confidence := 0, detections := some [], session := none }
        ).overlayRef = some o ∧
      o.width = 640 ∧ o.height = 480 ∧ o.ops = [] := by
  have h := drawDetections_without_detections_searches cameraOn
    { width := 300, height := 150, styleWidth := none, styleHeight := none,
      lineWidth := 1, fontPx := 10, ops := [] }
    { clientWidth := 640, clientHeight := 480, videoWidth := 1280, videoHeight := 960 }
    { dominant_emotion := "neutral", confidence := 0, detections := some [], session := none }
    rfl rfl (by decide) (by decide) (Or.inr rfl)
  exact ⟨h.1, h.2.1⟩

/-- C18: for every detection that `drawDetections` draws, the label background is the
filled rectangle whose top edge is `max (y*scaleY - textHeight) 0`: that edge is never
negative, and whenever the scaled top of the box is at least `textHeight` the bottom
edge of the label is exactly the top of the box; the label text is drawn 4 below that
top edge. -/
theorem label_sits_above_box_within_surface (s : State) (overlay : Overlay)
    (v : VideoElement) (r : FrameResponse) (ds : List Detection)
    (ho : s.overlayRef = some overlay) (hv : s.videoRef = some v)
    (hdw : displayWidth v ≠ 0) (hdh : displayHeight v ≠ 0)
    (hd : r.detections = some ds) (hne : ds ≠ []) :
    ∃ o : Overlay, (drawDetections s r).overlayRef = some o ∧
      ∀ d ∈ ds, ∃ labelY textWidth textHeight : ℚ, ∃ text : String,
        DrawOp.fillRect "rgba(15, 23, 42, 0.8)"
          (d.x * ((displayWidth v : ℚ) / (intrinsicWidth v : ℚ)) - 2)
          labelY textWidth textHeight ∈ o.ops ∧
        DrawOp.fillText "#fff" text
          (d.x * ((displayWidth v : ℚ) / (intrinsicWidth v : ℚ)) + 2) (labelY + 4) ∈ o.ops ∧
        textHeight = ((Int.floor (max (14 : ℚ) ((displayWidth v : ℚ) * (18 / 1000))) : ℤ) : ℚ) + 6 ∧
        labelY =
          max (d.y * ((displayHeight v : ℚ) / (intrinsicHeight v : ℚ)) - textHeight) 0 ∧
        0 ≤ labelY ∧
        (textHeight ≤ d.y * ((displayHeight v : ℚ) / (intrinsicHeight v : ℚ)) →
          labelY + textHeight = d.y * ((displayHeight v : ℚ) / (intrinsicHeight v : ℚ))) := by
  have hiw := intrinsicWidth_ne_zero v hdw
  have hih := intrinsicHeight_ne_zero v hdh
  have hlen : ds.length ≠ 0 := fun h => hne (List.length_eq_zero.mp h)
  unfold drawDetections
  rw [ho, hv]
  simp only [hdw, hdh, hiw, hih, or_self, if_false, hd, Option.getD_some, hlen]
  refine ⟨_, rfl, ?_⟩
  intro d hmem
  refine ⟨max (d.y * ((displayHeight v : ℚ) / (intrinsicHeight v : ℚ)) -
      (((Int.floor (max (14 : ℚ) ((displayWidth v : ℚ) * (18 / 1000))) : ℤ) : ℚ) + 6)) 0,
    s.measureText (max (14 : ℚ) ((displayWidth v : ℚ) * (18 / 1000)))
      (d.label ++ " " ++ toFixed1 (d.confidence * 100) ++ "%") + 10,
    ((Int.floor (max (14 : ℚ) ((displayWidth v : ℚ) * (18 / 1000))) : ℤ) : ℚ) + 6,
    d.label ++ " " ++ toFixed1 (d.confidence * 100) ++ "%", ?_, ?_, rfl, ?_, le_max_right _ _, ?_⟩
  · simp only [List.mem_flatMap]
    exact ⟨d, hmem, by simp [drawDetection]⟩
  · simp only [List.mem_flatMap]
    exact ⟨d, hmem, by simp [drawDetection]⟩
  · rfl
  · intro hle
    rw [max_eq_left (sub_nonneg.mpr hle)]
    ring

/-- C18 with the camera on and the box `(100, 100, 200, 150)`: the font is 14 px, the
label is 20 high, and its top edge is at 30, right above the box top at 50. -/
theorem label_sits_above_box_within_surface_witness :
    ∃ o : Overlay, (drawDetections cameraOn oneFace).overlayRef = some o ∧
      ∃ textWidth : ℚ, DrawOp.fillRect "rgba(15, 23, 42, 0.8)" 48 30 textWidth 20 ∈ o.ops := by
  obtain ⟨o, h1, h2⟩ :=
    label_sits_above_box_within_surface cameraOn
      { width := 300, height := 150, styleWidth := none, styleHeight := none,
        lineWidth := 1, fontPx := 10, ops := [] }
      { clientWidth := 640, clientHeight := 480, videoWidth := 1280, videoHeight := 960 }
      oneFace
      [{ x := 100, y := 100, w := 200, h := 150, label := "happy", confidence := 1 / 2 }]
      rfl rfl (by decide) (by decide) rfl (List.cons_ne_nil _ _)
  obtain ⟨labelY, textWidth, textHeight, text, h3, _, h5, h6, _, _⟩ :=
    h2 _ (List.mem_singleton_self _)
  have hfont : max (14 : ℚ) (((640 : ℕ) : ℚ) * (18 / 1000)) = 14 := by
    norm_num
  have hth : textHeight = 20 := by
    rw [h5]
    norm_num [displayWidth, numOr, hfont]
  have hly : labelY = 30 := by
    rw [h6, hth]
    norm_num [displayHeight, intrinsicHeight, numOr]
  refine ⟨o, h1, textWidth, ?_⟩
  rw [hth, hly] at h3
  norm_num [displayWidth, intrinsicWidth, numOr] at h3
  exact h3

/-! ### Releasing the camera -/

/-- C19 at a failing input: with the camera on, a recording is started and `stopCamera`
is called before the 5000 ms are over.  `stopCamera` clears the recording flag and the
clip, but recorder 1 is still recording and its timeout is still pending; when the
timeout fires (or when the browser ends the recorder because the tracks were stopped)
the recorder delivers its data and its `stop` handler publishes a clip after the
teardown. -/
theorem recording_outlives_stopCamera :
    (pageRun cameraOn [PageEvent.startRecording, PageEvent.stopCamera]).streamRef = false ∧
    (pageRun cameraOn [PageEvent.startRecording, PageEvent.stopCamera]).isRecording = false ∧
    (pageRun cameraOn [PageEvent.startRecording, PageEvent.stopCamera]).recordingBlob = none ∧
    recorderState (pageRun cameraOn [PageEvent.startRecording, PageEvent.stopCamera]) 1 =
      some RecordingState.recording ∧
    (pageRun cameraOn [PageEvent.startRecording, PageEvent.stopCamera]).timeouts =
      [{ recorder := 1, delay := 5000 }] ∧
    (pageRun cameraOn
      [PageEvent.startRecording, PageEvent.stopCamera, PageEvent.recordingTimeout 1,
       PageEvent.recorderData 1 4096, PageEvent.recorderStopped 1]).recordingBlob =
      some { parts := [4096], mimeType := "video/webm" } ∧
    (pageRun cameraOn
      [PageEvent.startRecording, PageEvent.stopCamera, PageEvent.tracksEnded 1,
       PageEvent.recorderData 1 4096, PageEvent.recorderStopped 1]).recordingBlob =
      some { parts := [4096], mimeType := "video/webm" } := by
  decide

/-- C20, as stated, fails: after a live session was stopped together with the camera
and its summary arrived, no camera session is active and no session id is bound, yet a
further `stopCamera` is not a no-op: it wipes the session stats taken from the summary.
So `stopCamera`, the arrival of the summary, `stopCamera` does not give the state of a
single `stopCamera` followed by that arrival. -/
theorem stopCamera_without_camera_resets_stats :
    cameraStoppedWithSummary.streamRef = false ∧
    cameraStoppedWithSummary.isPreviewActive = false ∧
    cameraStoppedWithSummary.liveSessionIdRef = none ∧
    cameraStoppedWithSummary.pendingStops = 0 ∧
    cameraStoppedWithSummary.liveSessionStats.isSome = true ∧
    (stopCamera cameraStoppedWithSummary).liveSessionStats.isSome = false := by
  decide

/-- Everything `stopCamera` does, on top of `stopLiveLoop`. -/
theorem stopCamera_eq (s : State) :
    stopCamera s =
      { stopLiveLoop s with
        liveStreams :=
          if s.streamRef then s.liveStreams.filter (fun id => id != s.streamId)
          else s.liveStreams
        streamRef := false
        videoSrcObject := if s.videoRef.isSome then false else s.videoSrcObject
        isPreviewActive := false
        isRecording := false
        recordingBlob := none
        liveError := ""
        liveResult := none
        liveStatus := "IA en espera" } := by
  unfold stopCamera
  rw [stopLiveLoop_eq]
  cases hs : s.streamRef <;> cases hv : s.videoRef <;> simp

/-- C20 (amended): while no live session id is bound, `stopCamera` is idempotent: a
second call right after the first leaves the state exactly as the first call left it.
Called with no camera stream stored, it stops no tracks and leaves recorders, timeouts
and sent requests as they are, but it is not a no-op in general: it still resets the
preview and recording flags, the recorded clip, the live error, the live result, the
status line, the gate, the overlay and the session stats. -/
theorem stopCamera_idempotent_without_session (s : State)
    (hs : truthy s.liveSessionIdRef = false) :
    stopCamera (stopCamera s) = stopCamera s ∧
    (s.streamRef = false →
      (stopCamera s).liveStreams = s.liveStreams ∧
      (stopCamera s).streamRef = false ∧
      (stopCamera s).recorders = s.recorders ∧
      (stopCamera s).timeouts = s.timeouts ∧
      (stopCamera s).sentStops = s.sentStops ∧
      (stopCamera s).sentStarts = s.sentStarts ∧
      (stopCamera s).sentFrames = s.sentFrames ∧
      (stopCamera s).isPreviewActive = false ∧
      (stopCamera s).isRecording = false ∧
      (stopCamera s).recordingBlob = none ∧
      (stopCamera s).liveError = "" ∧
      (stopCamera s).liveResult = none ∧
      (stopCamera s).liveStatus = "IA en espera" ∧
      (stopCamera s).liveSessionStats = none) := by
  constructor
  · rw [stopCamera_eq (stopCamera s)]
    rw [stopCamera_eq s, stopLiveLoop_eq]
    simp only [stopLiveLoop_eq, hs]
    cases s.streamRef <;> cases s.videoRef <;> cases s.overlayRef <;>
      cases s.liveIntervalRef <;> simp
  · intro hstream
    rw [stopCamera_eq, stopLiveLoop_eq]
    simp [hs, hstream]

/-- The amended C20 on concrete states: with the camera on and no session, stopping the
camera twice is the same as stopping it once; with the camera off no track is touched. -/
theorem stopCamera_idempotent_without_session_witness :
    stopCamera (stopCamera cameraOn) = stopCamera cameraOn ∧
    (stopCamera cameraOff).liveStreams = [] := by
  have h1 := stopCamera_idempotent_without_session cameraOn (by decide)
  have h2 := stopCamera_idempotent_without_session cameraOff (by decide)
  exact ⟨h1.1, (h2.2 (by decide)).1.trans (by decide)⟩

/-! ### Acquiring the camera -/

/-- C21 at a failing input: on the page without a camera, `Activar cámara` is clicked
twice before the first `getUserMedia` promise settles (the preview flag is still false,
so the button is enabled and the guard lets the second call through).  Two streams are
requested and both are acquired; the handle keeps only the second, and `stopCamera`
stops only that one, leaving the first stream's tracks live. -/
theorem second_startCamera_acquires_second_stream :
    (pageRun cameraOff [PageEvent.startCamera]).pendingCameras = 1 ∧
    (pageRun cameraOff [PageEvent.startCamera, PageEvent.startCamera]).pendingCameras = 2 ∧
    (pageRun cameraOff
      [PageEvent.startCamera, PageEvent.startCamera, PageEvent.cameraFulfilled,
       PageEvent.cameraFulfilled]).liveStreams = [1, 2] ∧
    (pageRun cameraOff
      [PageEvent.startCamera, PageEvent.startCamera, PageEvent.cameraFulfilled,
       PageEvent.cameraFulfilled]).streamId = 2 ∧
    (pageRun cameraOff
      [PageEvent.startCamera, PageEvent.startCamera, PageEvent.cameraFulfilled,
       PageEvent.cameraFulfilled, PageEvent.stopCamera]).streamRef = false ∧
    (pageRun cameraOff
      [PageEvent.startCamera, PageEvent.startCamera, PageEvent.cameraFulfilled,
       PageEvent.cameraFulfilled, PageEvent.stopCamera]).liveStreams = [1] := by
  decide

/-! ### The clip recorder -/

/-- C24: without a stored camera stream `startRecording` only shows the error asking to
switch the camera on (no recorder, no timeout); with a stream and a recording already in
progress it leaves the whole state as it is. -/
theorem startRecording_guards (s : State) :
    (s.streamRef = false →
      startRecording s = { s with webcamError := "Activa la cámara antes de grabar." } ∧
      (startRecording s).recorders = s.recorders ∧
      (startRecording s).timeouts = s.timeouts ∧
      (startRecording s).recorderRef = s.recorderRef) ∧
    (s.streamRef = true → s.isRecording = true → startRecording s = s) := by
  constructor
  · intro h
    simp [startRecording, h]
  · intro h1 h2
    simp [startRecording, h1, h2]

/-- C24 on concrete states: with the camera off the error is shown; while the first
recording is in progress a second click changes nothing. -/
theorem startRecording_guards_witness :
    (startRecording cameraOff).webcamError = "Activa la cámara antes de grabar." ∧
    (startRecording cameraOff).recorders = [] ∧
    startRecording (startRecording cameraOn) = startRecording cameraOn := by
  have h1 := startRecording_guards cameraOff
  have h2 := startRecording_guards (startRecording cameraOn)
  refine ⟨?_, (h1.1 (by decide)).2.1.trans (by decide), h2.2 (by decide) (by decide)⟩
  rw [(h1.1 (by decide)).1]

/-- C23, as stated, fails: a recording is started, the recorder fails, and the browser
then delivers the data gathered so far and dispatches `stop`; the error is shown, but the
`stop` handler publishes a clip all the same, and it does so (with an empty clip) even
when no data was gathered. -/
theorem record_error_still_publishes_clip :
    (pageRun cameraOn [PageEvent.startRecording, PageEvent.recorderError 1]).webcamError =
      "Ocurrió un error durante la grabación." ∧
    (pageRun cameraOn [PageEvent.startRecording, PageEvent.recorderError 1]).recordingBlob = none ∧
    (pageRun cameraOn
      [PageEvent.startRecording, PageEvent.recorderError 1, PageEvent.recorderData 1 2048,
       PageEvent.recorderStopped 1]).recordingBlob =
      some { parts := [2048], mimeType := "video/webm" } ∧
    (pageRun cameraOn
      [PageEvent.startRecording, PageEvent.recorderError 1,
       PageEvent.recorderStopped 1]).recordingBlob =
      some { parts := [], mimeType := "video/webm" } := by
  decide

theorem recorderStop_recorders (s : State) (id : Nat) :
    (recorderStop s id).recorders =
      s.recorders.map (fun r =>
        if r.id = id ∧ r.state = RecordingState.recording then
          { r with state := RecordingState.inactive, stopQueued := true }
        else r) := rfl

/-- C23 (amended): when a recorder that is recording fails, the error handler surfaces
the recording error and the recorder is inactive at once with its `stop` event queued;
when that event is dispatched, the `stop` handler clears the recording flag and
publishes the chunks gathered so far as the recorded clip, so a clip (possibly empty) is
made available for submission. -/
theorem record_error_stops_then_publishes (s : State) (id : Nat)
    (hrec : recorderHas s id (fun r => r.state == RecordingState.recording) = true) :
    (recorder_onerror s id).webcamError = "Ocurrió un error durante la grabación." ∧
    (∀ r ∈ (recorder_onerror s id).recorders, r.id = id → r.state = RecordingState.inactive) ∧
    recorderHas (recorder_onerror s id) id (fun r => r.stopQueued) = true ∧
    (recorder_onerror s id).recordingBlob = s.recordingBlob ∧
    (recorder_onstop (recorder_onerror s id) id).recordingBlob.isSome = true ∧
    (recorder_onstop (recorder_onerror s id) id).isRecording = false := by
  refine ⟨rfl, ?_, ?_, rfl, rfl, rfl⟩
  · intro r hr hid
    simp only [recorder_onerror, recorderInactivate, recorderStop_recorders, List.mem_map] at hr
    obtain ⟨r1, ⟨r0, _, h01⟩, h1⟩ := hr
    subst h01 h1
    by_cases h0 : r0.id = id ∧ r0.state = RecordingState.recording
    · simp [h0]
    · by_cases h2 : r0.state = RecordingState.recording
      · have hne : r0.id ≠ id := fun h => h0 ⟨h, h2⟩
        simp [h0] at hid
        exact absurd hid hne
      · cases hst : r0.state with
        | inactive => simp [h0, hst]
        | recording => exact absurd hst h2
  · simp only [recorderHas, List.any_eq_true, Bool.and_eq_true, beq_iff_eq] at hrec ⊢
    obtain ⟨r0, hmem, hid, hst⟩ := hrec
    refine ⟨{ r0 with state := RecordingState.inactive, stopQueued := true }, ?_, hid, rfl⟩
    simp only [recorder_onerror, recorderInactivate, recorderStop_recorders, List.mem_map]
    refine ⟨{ r0 with state := RecordingState.inactive, stopQueued := true },
      ⟨r0, hmem, by simp [hid, hst]⟩, by simp⟩

/-- The amended C23 on the first recording of the page: after the error the recorder is
inactive, and the dispatched `stop` makes a clip available. -/
theorem record_error_stops_then_publishes_witness :
    (recorder_onerror (startRecording cameraOn) 1).webcamError =
      "Ocurrió un error durante la grabación." ∧
    (recorder_onstop (recorder_onerror (startRecording cameraOn) 1) 1).recordingBlob.isSome =
      true := by
  have h := record_error_stops_then_publishes (startRecording cameraOn) 1 (by decide)
  exact ⟨h.1, h.2.2.2.2.1⟩

/-! ### Every recording publishes once -/

theorem step_recorders (s : State) (e : LiveEvent) :
    (step s e).recorders = s.recorders := by
  cases e with
  | start =>
    simp only [step]
    unfold startLiveLoop
    cases s.captureCanvasRef <;> simp only [] <;> split_ifs <;> rfl
  | startFulfilled sid =>
    simp only [step]
    split_ifs
    · simp only [startLiveLoop_fulfilled, setInterval]
      rw [captureAndAnalyze_eq]
    · rfl
  | startRejected e =>
    simp only [step]
    split_ifs
    · simp [startLiveLoop_rejected, responseInterceptor_eq]
    · rfl
  | tick handle =>
    simp only [step]
    split_ifs
    · rw [captureAndAnalyze_eq]
    · rfl
  | blob ok =>
    simp only [step]
    split_ifs
    · cases ok <;> simp [captureAndAnalyze_blob]
    · rfl
  | frameFulfilled r =>
    simp only [step]
    split_ifs
    · unfold captureAndAnalyze_fulfilled
      cases r.session <;> simp only [] <;> rw [drawDetections_eq]
    · rfl
  | frameRejected e =>
    simp only [step]
    split_ifs
    · unfold captureAndAnalyze_rejected
      by_cases h : e.status = some 400 <;>
        simp [h, stopLiveLoop_eq, clearOverlay_eq, responseInterceptor_eq]
    · rfl
  | stop => simp [step, stopLiveLoop_eq]
  | stopFulfilled d =>
    simp only [step]
    split_ifs
    · rw [closeLiveSession_fulfilled_eq]
    · rfl
  | stopRejected e =>
    simp only [step]
    split_ifs
    · simp [closeLiveSession_rejected, responseInterceptor_eq]
    · rfl
  | video element => rfl

theorem publishesOnce_stop (id : Nat) (r : Recorder) (h : PublishesOnce r) :
    PublishesOnce
      (if r.id = id ∧ r.state = RecordingState.recording then
        { r with state := RecordingState.inactive, stopQueued := true }
      else r) := by
  split_ifs with hc
  · obtain ⟨h1, _, h3⟩ := h
    have h0 := (h1 hc.2).2
    exact ⟨fun hrec => by simp at hrec, fun _ => h0, h3⟩
  · exact h

theorem publishesOnce_data (id size : Nat) (r : Recorder) (h : PublishesOnce r) :
    PublishesOnce (if r.id = id then { r with chunks := r.chunks ++ [size] } else r) := by
  split_ifs
  · exact h
  · exact h

theorem publishesOnce_onstop (id : Nat) (r : Recorder) (h : PublishesOnce r) :
    PublishesOnce
      (if r.id = id ∧ r.stopQueued = true then
        { r with stopQueued := false, published := r.published + 1 }
      else r) := by
  split_ifs with hc
  · obtain ⟨h1, h2, _⟩ := h
    have h0 : r.published = 0 := h2 hc.2
    refine ⟨?_, fun hq => by simp at hq, by simp [h0]⟩
    intro hrec
    have := (h1 hrec).1
    rw [hc.2] at this
    simp at this
  · exact h

theorem publishesOnce_map (f : Recorder → Recorder) (l : List Recorder)
    (hf : ∀ r, PublishesOnce r → PublishesOnce (f r))
    (hl : ∀ r ∈ l, PublishesOnce r) : ∀ r ∈ l.map f, PublishesOnce r := by
  intro r hr
  obtain ⟨r0, h0, rfl⟩ := List.mem_map.mp hr
  exact hf r0 (hl r0 h0)

theorem recorderStop_publishesOnce (s : State) (id : Nat)
    (h : ∀ r ∈ s.recorders, PublishesOnce r) :
    ∀ r ∈ (recorderStop s id).recorders, PublishesOnce r :=
  publishesOnce_map _ _ (publishesOnce_stop id) h

theorem pageStep_publishesOnce (s : State) (e : PageEvent)
    (h : ∀ r ∈ s.recorders, PublishesOnce r) :
    ∀ r ∈ (pageStep s e).recorders, PublishesOnce r := by
  cases e with
  | live e =>
    simp only [pageStep, step_recorders]
    exact h
  | startCamera =>
    simp only [pageStep, startCamera]
    split_ifs <;> exact h
  | cameraFulfilled =>
    simp only [pageStep]
    split_ifs
    · unfold startCamera_fulfilled
      rw [clearOverlay_eq]
      cases s.videoRef <;> exact h
    · exact h
  | cameraRejected =>
    simp only [pageStep]
    split_ifs <;> exact h
  | stopCamera =>
    simp only [pageStep]
    rw [stopCamera_eq, stopLiveLoop_eq]
    exact h
  | startRecording =>
    simp only [pageStep, startRecording]
    split_ifs
    · exact h
    · exact h
    · exact h
    · exact h
    · intro r hr
      simp only [List.mem_append, List.mem_singleton] at hr
      rcases hr with hr | hr
      · exact h r hr
      · subst hr
        exact ⟨fun _ => ⟨rfl, rfl⟩, fun hq => by simp at hq, Nat.zero_le _⟩
  | stopRecording =>
    simp only [pageStep, stopRecording]
    cases s.recorderRef with
    | none => exact h
    | some id =>
      simp only []
      split_ifs
      · exact recorderStop_publishesOnce s id h
      · exact h
  | recordingTimeout id =>
    simp only [pageStep]
    split_ifs
    · unfold recordingTimeout
      simp only []
      split_ifs
      · exact recorderStop_publishesOnce _ id h
      · exact h
    · exact h
  | recorderData id size =>
    simp only [pageStep]
    split_ifs
    · unfold recorder_ondataavailable
      split_ifs
      · exact publishesOnce_map _ _ (publishesOnce_data id size) h
      · exact h
    · exact h
  | recorderStopped id =>
    simp only [pageStep]
    split_ifs
    · exact publishesOnce_map _ _ (publishesOnce_onstop id) h
    · exact h
  | recorderError id =>
    simp only [pageStep]
    split_ifs
    · exact recorderStop_publishesOnce _ id (recorderStop_publishesOnce s id h)
    · exact h
  | tracksEnded id =>
    simp only [pageStep]
    split_ifs
    · exact recorderStop_publishesOnce s id h
    · exact h

theorem pageRun_publishesOnce (events : List PageEvent) :
    ∀ s : State, (∀ r ∈ s.recorders, PublishesOnce r) →
      ∀ r ∈ (pageRun s events).recorders, PublishesOnce r := by
  induction events with
  | nil => intro s h; exact h
  | cons e rest ih =>
    intro s h
    exact ih (pageStep s e) (pageStep_publishesOnce s e h)

theorem map_unchanged (f : Recorder → Recorder) (l : List Recorder)
    (h : ∀ r ∈ l, f r = r) : l.map f = l := by
  induction l with
  | nil => rfl
  | cons a rest ih =>
    simp only [List.map_cons]
    rw [h a (List.mem_cons_self _ _), ih (fun r hr => h r (List.mem_cons_of_mem _ hr))]

/-- C22: every recorder ever created on the page publishes at most one clip, whatever
happens.  A recording started when the guards of `startRecording` pass gets a fresh
recorder and a 5000 ms timeout of its own.  If stop is never called, that timeout stops
the recorder and the dispatched `stop` event publishes its one clip.  If `stopRecording`
is called first, the clip is published then, and the timeout firing later changes nothing
but its own removal: no second clip, and a newer recording keeps recording. -/
theorem each_recording_publishes_one_clip (s : State)
    (hguards : s.streamRef = true ∧ s.isRecording = false ∧
      s.mediaRecorderDefined = true ∧ s.mediaRecorderConstructs = true)
    (hids : ∀ r ∈ s.recorders, r.id ≤ s.nextRecorder)
    (hinv : ∀ r ∈ s.recorders, PublishesOnce r) :
    (∀ events : List PageEvent, ∀ r ∈ (pageRun s events).recorders, r.published ≤ 1) ∧
    (pageRun s [PageEvent.startRecording]).recorders =
      s.recorders ++
        [{ id := s.nextRecorder + 1, stream := s.streamId, state := RecordingState.recording,
           chunks := [], stopQueued := false, published := 0 }] ∧
    (pageRun s [PageEvent.startRecording]).timeouts =
      s.timeouts ++ [{ recorder := s.nextRecorder + 1, delay := 5000 }] ∧
    (pageRun s
      [PageEvent.startRecording, PageEvent.recordingTimeout (s.nextRecorder + 1),
       PageEvent.recorderStopped (s.nextRecorder + 1)]).recorders =
      s.recorders ++
        [{ id := s.nextRecorder + 1, stream := s.streamId, state := RecordingState.inactive,
           chunks := [], stopQueued := false, published := 1 }] ∧
    (pageRun s
      [PageEvent.startRecording, PageEvent.recordingTimeout (s.nextRecorder + 1),
       PageEvent.recorderStopped (s.nextRecorder + 1)]).recordingBlob =
      some { parts := [], mimeType := "video/webm" } ∧
    (pageRun s
      [PageEvent.startRecording, PageEvent.stopRecording,
       PageEvent.recorderStopped (s.nextRecorder + 1)]).recorders =
      s.recorders ++
        [{ id := s.nextRecorder + 1, stream := s.streamId, state := RecordingState.inactive,
           chunks := [], stopQueued := false, published := 1 }] ∧
    (pageRun s
      [PageEvent.startRecording, PageEvent.stopRecording,
       PageEvent.recorderStopped (s.nextRecorder + 1),
       PageEvent.recordingTimeout (s.nextRecorder + 1)]).recorders =
      s.recorders ++
        [{ id := s.nextRecorder + 1, stream := s.streamId, state := RecordingState.inactive,
           chunks := [], stopQueued := false, published := 1 }] ∧
    (pageRun s
      [PageEvent.startRecording, PageEvent.stopRecording,
       PageEvent.recorderStopped (s.nextRecorder + 1), PageEvent.startRecording,
       PageEvent.recordingTimeout (s.nextRecorder + 1)]).recorders =
      s.recorders ++
        [{ id := s.nextRecorder + 1, stream := s.streamId, state := RecordingState.inactive,
           chunks := [], stopQueued := false, published := 1 },
         { id := s.nextRecorder + 2, stream := s.streamId, state := RecordingState.recording,
           chunks := [], stopQueued := false, published := 0 }] := by
  obtain ⟨h1, h2, h3, h4⟩ := hguards
  have hne : ∀ r ∈ s.recorders, r.id ≠ s.nextRecorder + 1 := by
    intro r hr
    have := hids r hr
    omega
  have hfind : s.recorders.find? (fun r => r.id == s.nextRecorder + 1) = none := by
    rw [List.find?_eq_none]
    intro r hr
    simpa using hne r hr
  have hany : ∀ p : Recorder → Bool,
      s.recorders.any (fun r => r.id == s.nextRecorder + 1 && p r) = false := by
    intro p
    rw [List.any_eq_false]
    intro r hr
    simp [hne r hr]
  have hmapStop : s.recorders.map (fun r =>
      if r.id = s.nextRecorder + 1 ∧ r.state = RecordingState.recording then
        { r with state := RecordingState.inactive, stopQueued := true }
      else r) = s.recorders :=
    map_unchanged _ _ (fun r hr => by simp [hne r hr])
  have hmapOnstop : s.recorders.map (fun r =>
      if r.id = s.nextRecorder + 1 ∧ r.stopQueued = true then
        { r with stopQueued := false, published := r.published + 1 }
      else r) = s.recorders :=
    map_unchanged _ _ (fun r hr => by simp [hne r hr])
  refine ⟨?_, ?_, ?_, ?_, ?_, ?_, ?_, ?_⟩
  · intro events r hr
    exact (pageRun_publishesOnce events s hinv r hr).2.2
  · simp [pageRun, pageStep, startRecording, h1, h2, h3, h4]
  · simp [pageRun, pageStep, startRecording, h1, h2, h3, h4]
  · simp [pageRun, pageStep, startRecording, h1, h2, h3, h4, recordingTimeout, recorderState,
      recorderStop, recorderHas, recorder_onstop, hfind, hany, hmapStop, hmapOnstop,
      List.find?_append]
  · simp [pageRun, pageStep, startRecording, h1, h2, h3, h4, recordingTimeout, recorderState,
      recorderStop, recorderHas, recorder_onstop, hfind, hany, hmapStop, hmapOnstop,
      List.find?_append]
  · simp [pageRun, pageStep, startRecording, h1, h2, h3, h4, stopRecording, recorderState,
      recorderStop, recorderHas, recorder_onstop, hfind, hany, hmapStop, hmapOnstop,
      List.find?_append]
  · simp [pageRun, pageStep, startRecording, h1, h2, h3, h4, stopRecording, recordingTimeout,
      recorderState, recorderStop, recorderHas, recorder_onstop, hfind, hany, hmapStop,
      hmapOnstop, List.find?_append]
  · simp [pageRun, pageStep, startRecording, h1, h2, h3, h4, stopRecording, recordingTimeout,
      recorderState, recorderStop, recorderHas, recorder_onstop, hfind, hany, hmapStop,
      hmapOnstop, List.find?_append]

/-- C22 on the first recording of the page: left alone, recorder 1 is stopped by its
timeout and publishes one clip; stopped by hand, the later timeout adds nothing. -/
theorem each_recording_publishes_one_clip_witness :
    (pageRun cameraOn
      [PageEvent.startRecording, PageEvent.recordingTimeout 1,
       PageEvent.recorderStopped 1]).recorders =
      [{ id := 1, stream := 1, state := RecordingState.inactive, chunks := [],
         stopQueued := false, published := 1 }] ∧
    (pageRun cameraOn
      [PageEvent.startRecording, PageEvent.stopRecording, PageEvent.recorderStopped 1,
       PageEvent.recordingTimeout 1]).recorders =
      [{ id := 1, stream := 1, state := RecordingState.inactive, chunks := [],
         stopQueued := false, published := 1 }] := by
  have h := each_recording_publishes_one_clip cameraOn (by decide) (by decide)
    (fun r hr => by cases hr)
  exact ⟨h.2.2.2.1, h.2.2.2.2.2.2.1⟩

theorem frame_status_400_rejected_keeps_handle (s : State) (e : ApiError)
    (h400 : e.status = some 400) :
    (captureAndAnalyze_rejected s e).liveIntervalRef = s.liveIntervalRef := by
  unfold captureAndAnalyze_rejected
  simp [h400, clearOverlay_eq, responseInterceptor_eq]

/-! ### One classification or several -/

/-- C25, as stated, fails: for status 422 with the message `Unprocessable Entity` the
test of `startLiveLoop` says expired (the re-authenticate text is shown) while the
interceptor's test says not expired (no logout event); and the frame handler has a
status test of its own, `status === 400`, on which the interceptor's classification has
no say. -/
theorem expired_tests_disagree_on_plain_422 :
    startSessionExpired { status := some 422, message := some "Unprocessable Entity", msg := none } =
      true ∧
    shouldLogout { status := some 422, message := some "Unprocessable Entity", msg := none } =
      false ∧
    (startLiveLoop_rejected (startLiveLoop cameraOn)
      { status := some 422, message := some "Unprocessable Entity", msg := none }).liveError =
      "Tu sesión expiró. Inicia sesión nuevamente para usar la cámara en vivo." ∧
    (startLiveLoop_rejected (startLiveLoop cameraOn)
      { status := some 422, message := some "Unprocessable Entity", msg := none }).unauthorized =
      [] ∧
    frameFailureBenign { status := some 400, message := none, msg := none } = true ∧
    shouldLogout { status := some 400, message := none, msg := none } = false := by
  decide

/-- C25 (amended): there are three status tests.  The test of `startLiveLoop` (401 or
422) decides the text shown when a session start fails; it holds whenever the
interceptor's logout test holds, and the two differ exactly on status 422 with a message
that does not contain `subject must be a string`.  The frame handler decides between
continuing and stopping by its own test `status === 400`, which never holds together
with the interceptor's test, and it stops the loop whenever its test fails. -/
theorem expired_classifications_compared (e : ApiError) :
    (shouldLogout e = true → startSessionExpired e = true) ∧
    ((startSessionExpired e = true ∧ shouldLogout e = false) ↔
      (e.status = some 422 ∧
        includes (toLowerCase (rawMessage e)) "subject must be a string" = false)) ∧
    (∀ s : State, (startLiveLoop_rejected s e).liveError =
      if startSessionExpired e then
        "Tu sesión expiró. Inicia sesión nuevamente para usar la cámara en vivo."
      else (orElse (orElse e.message e.msg) (some "No se pudo iniciar la sesión en vivo.")).getD "") ∧
    (frameFailureBenign e = true → shouldLogout e = false) ∧
    (∀ s : State, frameFailureBenign e = true →
      (captureAndAnalyze_rejected s e).liveIntervalRef = s.liveIntervalRef) ∧
    (∀ s : State, frameFailureBenign e = false →
      (captureAndAnalyze_rejected s e).liveIntervalRef = none) := by
  refine ⟨?_, ?_, ?_, ?_, ?_, ?_⟩
  · intro h
    rcases shouldLogout_status e h with h1 | h1 <;> simp [startSessionExpired, h1]
  · constructor
    · rintro ⟨h1, h2⟩
      simp only [startSessionExpired, Bool.or_eq_true, beq_iff_eq] at h1
      rcases h1 with h1 | h1
      · simp [shouldLogout, h1] at h2
      · refine ⟨h1, ?_⟩
        simpa [shouldLogout, h1] using h2
    · rintro ⟨h1, h2⟩
      simp [startSessionExpired, shouldLogout, h1, h2]
  · intro s
    by_cases h1 : e.status = some 401
    · simp [startLiveLoop_rejected, startSessionExpired, h1]
    · by_cases h2 : e.status = some 422
      · simp [startLiveLoop_rejected, startSessionExpired, h2]
      · simp [startLiveLoop_rejected, startSessionExpired, h1, h2]
  · intro h
    have h4 : e.status = some 400 := by simpa [frameFailureBenign] using h
    simp [shouldLogout, h4]
  · intro s h
    have h4 : e.status = some 400 := by simpa [frameFailureBenign] using h
    exact (frame_status_400_rejected_keeps_handle s e h4)
  · intro s h
    have h4 : e.status ≠ some 400 := by simpa [frameFailureBenign] using h
    rw [captureAndAnalyze_rejected_eq s e h4, stopLiveLoop_eq]

/-- The amended C25 on a concrete failure: status 401 is expired for both tests. -/
theorem expired_classifications_compared_witness :
    shouldLogout { status := some 401, message := none, msg := none } = true ∧
    startSessionExpired { status := some 401, message := none, msg := none } = true :=
  ⟨by decide,
   (expired_classifications_compared { status := some 401, message := none, msg := none }).1
     (by decide)⟩

/-! ### Timers and the gate -/

/-- C26 at a failing input: with the camera on, `startLiveLoop` is called twice before the
first session-start request resolves (nothing the guard tests is set yet), and both
requests succeed.  Two repeating timers are scheduled and the handle keeps only the
second; `stopLiveLoop` cancels that one, timer 1 stays scheduled, and its next tick
starts encoding a frame although the loop is stopped. -/
theorem second_start_orphans_timer :
    (run cameraOn [LiveEvent.start, LiveEvent.start]).pendingStarts = 2 ∧
    (run cameraOn
      [LiveEvent.start, LiveEvent.start, LiveEvent.startFulfilled (some "a"),
       LiveEvent.startFulfilled (some "b")]).timers =
      [{ handle := 1, delay := 1800 }, { handle := 2, delay := 1800 }] ∧
    (run cameraOn
      [LiveEvent.start, LiveEvent.start, LiveEvent.startFulfilled (some "a"),
       LiveEvent.startFulfilled (some "b")]).liveIntervalRef = some 2 ∧
    (run cameraOn
      [LiveEvent.start, LiveEvent.start, LiveEvent.startFulfilled (some "a"),
       LiveEvent.startFulfilled (some "b"), LiveEvent.stop]).liveIntervalRef = none ∧
    (run cameraOn
      [LiveEvent.start, LiveEvent.start, LiveEvent.startFulfilled (some "a"),
       LiveEvent.startFulfilled (some "b"), LiveEvent.stop]).timers =
      [{ handle := 1, delay := 1800 }] ∧
    (run cameraOn
      [LiveEvent.start, LiveEvent.start, LiveEvent.startFulfilled (some "a"),
       LiveEvent.startFulfilled (some "b"), LiveEvent.stop]).isLiveActive = false ∧
    (run cameraOn
      [LiveEvent.start, LiveEvent.start, LiveEvent.startFulfilled (some "a"),
       LiveEvent.startFulfilled (some "b"), LiveEvent.stop, LiveEvent.tick 1]).pendingBlobs =
      (run cameraOn
        [LiveEvent.start, LiveEvent.start, LiveEvent.startFulfilled (some "a"),
         LiveEvent.startFulfilled (some "b"), LiveEvent.stop]).pendingBlobs + 1 := by
  decide

/-- C27: a tick is skipped, leaving the whole state (gate and sent requests included)
as it found it, when there is no video element, the video has width zero, the capture
canvas is missing, or the gate is already set.  Otherwise it sets the gate and starts
encoding a frame without sending anything yet.  Each way such a tick can end clears the
gate: the encoder yields no blob (nothing is sent), the request succeeds, or the request
fails, whatever the status. -/
theorem tick_sets_and_clears_gate (s : State) :
    ((s.videoRef = none ∨ s.videoRef.map (fun v => v.videoWidth) = some 0 ∨
        s.captureCanvasRef = none ∨ s.liveRequestRef = true) →
      captureAndAnalyze s = s) ∧
    (∀ v c, s.videoRef = some v → v.videoWidth ≠ 0 → s.captureCanvasRef = some c →
      s.liveRequestRef = false →
      (captureAndAnalyze s).liveRequestRef = true ∧
      (captureAndAnalyze s).pendingBlobs = s.pendingBlobs + 1 ∧
      (captureAndAnalyze s).sentFrames = s.sentFrames) ∧
    ((captureAndAnalyze_blob s false).liveRequestRef = false ∧
      (captureAndAnalyze_blob s false).sentFrames = s.sentFrames) ∧
    ((captureAndAnalyze_blob s true).liveRequestRef = s.liveRequestRef ∧
      (captureAndAnalyze_blob s true).pendingFrames = s.pendingFrames + 1) ∧
    (∀ r : FrameResponse, (captureAndAnalyze_fulfilled s r).liveRequestRef = false) ∧
    (∀ e : ApiError, (captureAndAnalyze_rejected s e).liveRequestRef = false) := by
  refine ⟨?_, ?_, ?_, ?_, ?_, ?_⟩
  · intro h
    unfold captureAndAnalyze
    rcases h with h | h | h | h
    · simp [h]
    · cases hv : s.videoRef with
      | none => rfl
      | some v =>
        have hw : v.videoWidth = 0 := by simpa [hv] using h
        cases hc : s.captureCanvasRef <;> simp [hw]
    · cases hv : s.videoRef <;> simp [h]
    · cases hv : s.videoRef <;> cases hc : s.captureCanvasRef <;> simp [h]
  · intro v c hv hw hc hg
    simp [captureAndAnalyze, hv, hw, hc, hg]
  · simp [captureAndAnalyze_blob]
  · simp [captureAndAnalyze_blob]
  · intro r
    unfold captureAndAnalyze_fulfilled
    cases r.session <;> rfl
  · intro e
    rfl

/-- C27 with the camera on: the first tick sets the gate; when the encoder then yields no
blob the gate is clear again and nothing was sent. -/
theorem tick_sets_and_clears_gate_witness :
    (captureAndAnalyze cameraOn).liveRequestRef = true ∧
    (captureAndAnalyze_blob (captureAndAnalyze cameraOn) false).liveRequestRef = false ∧
    (captureAndAnalyze_blob (captureAndAnalyze cameraOn) false).sentFrames = [] := by
  have h1 := tick_sets_and_clears_gate cameraOn
  have h2 := tick_sets_and_clears_gate (captureAndAnalyze cameraOn)
  exact ⟨(h1.2.1
      { clientWidth := 640, clientHeight := 480, videoWidth := 1280, videoHeight := 960 }
      { width := 300, height := 150 } (by decide) (by decide) (by decide) (by decide)).1,
    h2.2.2.1.1, h2.2.2.1.2.trans (by decide)⟩

/-! ### `mediaService.js`: normalizing payloads -/

theorem startsWith_mediaFiles_append (x : String) :
    startsWith ("/media/files/" ++ x) "/media/files" = true := by
  unfold startsWith
  show List.isPrefixOf "/media/files".data ("/media/files/" ++ x).data = true
  rw [String.data_append]
  have h1 : "/media/files/".data = "/media/files".data ++ ['/'] := by decide
  rw [h1, List.append_assoc, List.isPrefixOf_iff_prefix]
  exact List.prefix_append _ _

theorem startsWith_mediaFiles_shape (r : String)
    (h : startsWith r "/media/files" = true) : r ≠ "" ∧ startsWith r "http" = false := by
  unfold startsWith at h ⊢
  have hm : "/media/files".toList = '/' :: "media/files".toList := by decide
  have hh : "http".toList = 'h' :: "ttp".toList := by decide
  rw [hm] at h
  rw [hh]
  cases hr : r.toList with
  | nil =>
    rw [hr] at h
    simp at h
  | cons c rest =>
    rw [hr, List.isPrefixOf_cons₂] at h
    simp only [Bool.and_eq_true, beq_iff_eq] at h
    constructor
    · intro he
      rw [he] at hr
      simp at hr
    · rw [List.isPrefixOf_cons₂, ← h.1]
      simp

/-- C29: `normalizeFileEndpoint` returns `null` exactly when the path is missing or
empty; every other result begins with `/media/files`; and normalizing a result again
gives the same result. -/
theorem normalizeFileEndpoint_contract (apiBaseUrl : String) (pathOrUrl : Option String) :
    (normalizeFileEndpoint apiBaseUrl pathOrUrl = none ↔ truthy pathOrUrl = false) ∧
    (∀ r, normalizeFileEndpoint apiBaseUrl pathOrUrl = some r →
      startsWith r "/media/files" = true) ∧
    normalizeFileEndpoint apiBaseUrl (normalizeFileEndpoint apiBaseUrl pathOrUrl) =
      normalizeFileEndpoint apiBaseUrl pathOrUrl := by
  have hstarts : ∀ r, normalizeFileEndpoint apiBaseUrl pathOrUrl = some r →
      startsWith r "/media/files" = true := by
    intro r hr
    unfold normalizeFileEndpoint at hr
    cases hp : pathOrUrl with
    | none => simp [hp] at hr
    | some path =>
      simp only [hp] at hr
      split_ifs at hr with h1 h2 h3 h3
      · rw [← Option.some.inj hr]
        exact h3
      · rw [← Option.some.inj hr]
        exact startsWith_mediaFiles_append _
      · rw [← Option.some.inj hr]
        exact h3
      · rw [← Option.some.inj hr]
        exact startsWith_mediaFiles_append _
  refine ⟨?_, hstarts, ?_⟩
  · unfold normalizeFileEndpoint
    cases hp : pathOrUrl with
    | none => simp [truthy]
    | some path =>
      by_cases h1 : path = ""
      · simp [h1, truthy]
      · simp only [h1, if_false, truthy, bne_iff_ne, ne_eq, not_false_eq_true, decide_True]
        split_ifs <;> simp [h1]
  · cases hn : normalizeFileEndpoint apiBaseUrl pathOrUrl with
    | none => rfl
    | some r =>
      obtain ⟨hne, hhttp⟩ := startsWith_mediaFiles_shape r (hstarts r hn)
      have hs := hstarts r hn
      simp [normalizeFileEndpoint, hne, hhttp, hs]

/-- C29 on concrete paths (absolute URL on the API host, relative path with slashes,
empty path). -/
theorem normalizeFileEndpoint_contract_witness :
    normalizeFileEndpoint "http://127.0.0.1:5005" (some "http://127.0.0.1:5005/media/files/a.jpg") =
      some "/media/files/a.jpg" ∧
    normalizeFileEndpoint "http://127.0.0.1:5005" (some "//snap/a.jpg") =
      some "/media/files/snap/a.jpg" ∧
    startsWith "/media/files/snap/a.jpg" "/media/files" = true ∧
    normalizeFileEndpoint "http://127.0.0.1:5005" (some "") = none := by
  have h := normalizeFileEndpoint_contract "http://127.0.0.1:5005" (some "//snap/a.jpg")
  have h0 := normalizeFileEndpoint_contract "http://127.0.0.1:5005" (some "")
  exact ⟨by decide, by decide, h.2.1 _ (by decide), h0.1.mpr (by decide)⟩

/-- C28 at a failing input: the payload carries an analysis record in `analysis` and an
empty array in `analyses`.  `normalizeAnalysesPayload` keeps the empty array, so the
record is not in `analyses`, while `liveSummaryAnalyses` of `MediaLab.jsx` falls back to
the single record on the same payload. -/
theorem normalize_keeps_empty_analyses :
    (normalizeAnalysesPayload
      { frames := 1, duration_seconds := 2, analyses := some [],
        analysis := some { id := 7, media_type := "webcam", dominant_emotion := "happy" } }).analyses =
      some [] ∧
    liveSummaryAnalyses
      (some { frames := 1, duration_seconds := 2, analyses := some [],
              analysis := some { id := 7, media_type := "webcam", dominant_emotion := "happy" } }) =
      [{ id := 7, media_type := "webcam", dominant_emotion := "happy" }] := by
  decide

end MediaLab

namespace Dashboard

/-- C30 at a failing input: the pool holds one record whose dominant emotion is spelled
`Happy` and the selected emotion is `happy`.  The filter compares in lower case and keeps
the record, while the counter is keyed by the spelling of the record, so the count shown
for the selected emotion is 0. -/
theorem count_differs_from_filter_on_case :
    (filteredOverview [{ id := 1, dominant_emotion := some "Happy" }] "happy").length = 1 ∧
    activeEmotionCount [{ id := 1, dominant_emotion := some "Happy" }] "happy" = 0 := by
  decide

end Dashboard
